import Mathlib

/-!
Verification of the kusanaginokajiki ICS/SCADA passive discovery engine
against its natural-language specification.

Each Rust function relevant to the checked claims is shallowly embedded as
an executable Lean definition, translated from the source:

* `infer_device_type`        — src/src-tauri/src/commands/mod.rs
* `build_confidence`         — src/src-tauri/src/commands/processor.rs (build_assets)
* `detect_t0846_remote_discovery` — crates/gm-analysis/src/attack.rs
* `TopologyBuilder.add_connection`, `extract_subnet` — crates/gm-topology/src/lib.rs
* `detect_purdue_violations` — crates/gm-analysis/src/purdue.rs
* `parse_modbus`             — crates/gm-parsers/src/modbus.rs
* `is_public_ip`             — crates/gm-db/src/geoip.rs
* `process_packet`           — src/src-tauri/src/commands/processor.rs

Machine integers are embedded as `Nat` (ports and bytes are bounded by
hypotheses where boundedness matters); Rust `HashMap`s are embedded as
association lists with entry/insert semantics; fallible parsing returns
`Option`.
-/

/-! ## Protocol tags (crates/gm-parsers/src/protocol.rs) -/

/-- The closed set of protocol tags, `enum IcsProtocol`. -/
inductive IcsProtocol where
  | Modbus
  | Dnp3
  | EthernetIp
  | Bacnet
  | S7comm
  | OpcUa
  | Profinet
  | Iec104
  | Mqtt
  | HartIp
  | FoundationFieldbus
  | GeSrtp
  | WonderwareSuitelink
  | Http
  | Https
  | Dns
  | Ssh
  | Rdp
  | Snmp
  | Unknown
  deriving DecidableEq, Repr

/-- `IcsProtocol::is_ot`: true exactly on the thirteen OT protocol tags. -/
def IcsProtocol.is_ot : IcsProtocol → Bool
  | .Modbus | .Dnp3 | .EthernetIp | .Bacnet | .S7comm | .OpcUa | .Profinet
  | .Iec104 | .Mqtt | .HartIp | .FoundationFieldbus | .GeSrtp
  | .WonderwareSuitelink => true
  | _ => false

/-! ## Device-type inference (src/src-tauri/src/commands/mod.rs) -/

/-- `infer_device_type(protocols, is_server)`: classify a device from its
observed protocol set and server-role flag. Direct translation of the
nested conditional in the source. -/
def infer_device_type (protocols : List IcsProtocol) (is_server : Bool) : String :=
  let has_modbus := protocols.contains .Modbus
  let has_dnp3 := protocols.contains .Dnp3
  let has_ethernet_ip := protocols.contains .EthernetIp
  let has_s7 := protocols.contains .S7comm
  let has_bacnet := protocols.contains .Bacnet
  let has_opc_ua := protocols.contains .OpcUa
  let has_ge_srtp := protocols.contains .GeSrtp
  let has_suitelink := protocols.contains .WonderwareSuitelink
  let ot_protocol_count := (protocols.filter (fun p => p.is_ot)).length
  if is_server && ot_protocol_count >= 1 then
    if has_ethernet_ip || has_s7 || has_ge_srtp || has_bacnet then
      "plc"
    else if has_modbus || has_dnp3 then
      "rtu"
    else
      "unknown"
  else if has_suitelink && is_server then
    "scada_server"
  else if ot_protocol_count >= 2 then
    "hmi"
  else if has_opc_ua && ot_protocol_count == 1 then
    "historian"
  else if ot_protocol_count == 0 then
    "it_device"
  else
    "unknown"

example : infer_device_type [.WonderwareSuitelink] true = "unknown" := by decide
example : infer_device_type [.OpcUa] true = "unknown" := by decide
example : infer_device_type [.OpcUa] false = "historian" := by decide
example : infer_device_type [.S7comm] true = "plc" := by decide

/-! ## Port-based protocol identification (crates/gm-parsers/src/protocol.rs) -/

/-- One step of the fixed port table: the protocol tag for a single port. -/
def protocol_of_port (port : Nat) : IcsProtocol :=
  if port = 502 then .Modbus
  else if port = 20000 then .Dnp3
  else if port = 44818 ∨ port = 2222 then .EthernetIp
  else if port = 47808 then .Bacnet
  else if port = 102 then .S7comm
  else if port = 4840 then .OpcUa
  else if 34962 ≤ port ∧ port ≤ 34964 then .Profinet
  else if port = 2404 then .Iec104
  else if port = 1883 ∨ port = 8883 then .Mqtt
  else if port = 5094 then .HartIp
  else if 1089 ≤ port ∧ port ≤ 1091 then .FoundationFieldbus
  else if port = 18245 ∨ port = 18246 then .GeSrtp
  else if port = 5007 then .WonderwareSuitelink
  else if port = 80 ∨ port = 8080 ∨ port = 8443 then .Http
  else if port = 443 then .Https
  else if port = 53 then .Dns
  else if port = 22 then .Ssh
  else if port = 3389 then .Rdp
  else if port = 161 ∨ port = 162 then .Snmp
  else .Unknown

/-- `identify_by_port(src_port, dst_port)`: destination port is checked
first, then the source port; first match in the fixed table wins. -/
def identify_by_port (src_port dst_port : Nat) : IcsProtocol :=
  if protocol_of_port dst_port ≠ .Unknown then protocol_of_port dst_port
  else protocol_of_port src_port

/-! ## Modbus deep parser (crates/gm-parsers/src/modbus.rs) -/

/-- Big-endian 16-bit value from two bytes, `u16::from_be_bytes`. -/
def u16_be (hi lo : Nat) : Nat := 256 * hi + lo

/-- Little-endian 16-bit value from two bytes, `u16::from_le_bytes`. -/
def u16_le (lo hi : Nat) : Nat := lo + 256 * hi

/-- `enum ModbusRole`. -/
inductive ModbusRole where
  | Master
  | Slave
  | Unknown
  deriving DecidableEq, Repr

/-- `enum RegisterType`. -/
inductive RegisterType where
  | Coil
  | DiscreteInput
  | HoldingRegister
  | InputRegister
  deriving DecidableEq, Repr

/-- `struct RegisterRange`. -/
structure RegisterRange where
  start : Nat
  count : Nat
  register_type : RegisterType
  deriving DecidableEq, Repr

/-- `struct ModbusDeviceId` — FC 43/14 device-identification strings. -/
structure ModbusDeviceId where
  vendor_name : Option String
  product_code : Option String
  revision : Option String
  vendor_url : Option String
  product_name : Option String
  model_name : Option String
  user_app_name : Option String
  deriving DecidableEq, Repr

/-- `struct ModbusInfo` — the result of a successful Modbus parse. -/
structure ModbusInfo where
  transaction_id : Nat
  unit_id : Nat
  function_code : Nat
  is_exception : Bool
  exception_code : Option Nat
  role : ModbusRole
  register_range : Option RegisterRange
  device_id : Option ModbusDeviceId
  diagnostic_subfunction : Option Nat
  deriving DecidableEq, Repr

/-- The register-type arm of `parse_register_range`'s `match fc`; `none`
models the early `return None` of the `_` arm. -/
def register_type_of_fc (fc : Nat) : Option RegisterType :=
  if fc = 1 ∨ fc = 5 ∨ fc = 15 then some .Coil
  else if fc = 2 then some .DiscreteInput
  else if fc = 3 ∨ fc = 6 ∨ fc = 16 ∨ fc = 23 then some .HoldingRegister
  else if fc = 4 then some .InputRegister
  else none

/-- `parse_register_range(fc, pdu_data, role)`: register ranges are taken
from master requests (with FC 5/6 hard-set to count 1) and from slave
responses to FC 15/16. -/
def parse_register_range (fc : Nat) (pdu_data : List Nat) (role : ModbusRole) :
    Option RegisterRange :=
  match register_type_of_fc fc with
  | none => none
  | some register_type =>
    if role = .Master ∧ pdu_data.length ≥ 4 then
      let start := u16_be (pdu_data.getD 0 0) (pdu_data.getD 1 0)
      let count := if fc = 5 ∨ fc = 6 then 1
        else u16_be (pdu_data.getD 2 0) (pdu_data.getD 3 0)
      some { start := start, count := count, register_type := register_type }
    else if role = .Slave ∧ (fc = 15 ∨ fc = 16) ∧ pdu_data.length ≥ 4 then
      some { start := u16_be (pdu_data.getD 0 0) (pdu_data.getD 1 0),
             count := u16_be (pdu_data.getD 2 0) (pdu_data.getD 3 0),
             register_type := register_type }
    else
      none

/-- The printable-ASCII reduction applied to each device-identification
object value: keep bytes 0x20..=0x7e, read them as characters. -/
def ascii_printable (bytes : List Nat) : String :=
  ((bytes.filter (fun b => decide (0x20 ≤ b ∧ b ≤ 0x7e))).map Char.ofNat).asString

/-- One `match object_id` step of the device-identification object loop. -/
def set_device_id_field (d : ModbusDeviceId) (object_id : Nat) (value : String) :
    ModbusDeviceId :=
  if object_id = 0x00 then { d with vendor_name := some value }
  else if object_id = 0x01 then { d with product_code := some value }
  else if object_id = 0x02 then { d with revision := some value }
  else if object_id = 0x03 then { d with vendor_url := some value }
  else if object_id = 0x04 then { d with product_name := some value }
  else if object_id = 0x05 then { d with model_name := some value }
  else if object_id = 0x06 then { d with user_app_name := some value }
  else d

/-- The `for _ in 0..num_objects` loop of `parse_device_id`: iterate
`(id, length, value)` objects, stopping early when the payload runs out. -/
def parse_device_id_objects : Nat → Nat → List Nat → ModbusDeviceId → ModbusDeviceId
  | 0, _, _, d => d
  | n + 1, offset, pdu_data, d =>
    if offset + 2 > pdu_data.length then d
    else
      let object_id := pdu_data.getD offset 0
      let object_len := pdu_data.getD (offset + 1) 0
      let offset2 := offset + 2
      if offset2 + object_len > pdu_data.length then d
      else
        let value := ascii_printable ((pdu_data.drop offset2).take object_len)
        let d2 := if value ≠ "" then set_device_id_field d object_id value else d
        parse_device_id_objects n (offset2 + object_len) pdu_data d2

/-- `parse_device_id(pdu_data, role)`: FC 43/14 responses from slaves;
returns a record only if vendor name, product code or revision came out
non-empty. -/
def parse_device_id (pdu_data : List Nat) (role : ModbusRole) : Option ModbusDeviceId :=
  if role ≠ .Slave then none
  else if pdu_data.length < 6 then none
  else if pdu_data.getD 0 0 ≠ 0x0E then none
  else
    let num_objects := pdu_data.getD 5 0
    let d := parse_device_id_objects num_objects 6 pdu_data
      ⟨none, none, none, none, none, none, none⟩
    if d.vendor_name.isSome || d.product_code.isSome || d.revision.isSome then
      some d
    else
      none

/-- `parse_modbus(payload, src_port, dst_port)`: MBAP header validation
followed by PDU field extraction. Bytes are `Nat`s; `payload.getD i 0`
reads `payload[i]` (all reads are guarded by the length checks of the
source). -/
def parse_modbus (payload : List Nat) (src_port dst_port : Nat) : Option ModbusInfo :=
  if payload.length < 7 + 1 then none
  else
    let transaction_id := u16_be (payload.getD 0 0) (payload.getD 1 0)
    let protocol_id := u16_be (payload.getD 2 0) (payload.getD 3 0)
    let unit_id := payload.getD 6 0
    if protocol_id ≠ 0x0000 then none
    else
      let function_code := payload.getD 7 0
      let is_exception : Bool := decide (function_code ≥ 0x80)
      let actual_fc := if is_exception then function_code &&& 0x7F else function_code
      let role : ModbusRole :=
        if dst_port = 502 then .Master
        else if src_port = 502 then .Slave
        else .Unknown
      let exception_code : Option Nat :=
        if is_exception ∧ payload.length ≥ 9 then some (payload.getD 8 0) else none
      let pdu_data := payload.drop 8
      let register_range := parse_register_range actual_fc pdu_data role
      let device_id :=
        if actual_fc = 43 ∧ ¬is_exception then parse_device_id pdu_data role else none
      let diagnostic_subfunction : Option Nat :=
        if actual_fc = 8 ∧ pdu_data.length ≥ 2 then
          some (u16_be (pdu_data.getD 0 0) (pdu_data.getD 1 0))
        else none
      some { transaction_id := transaction_id, unit_id := unit_id,
             function_code := actual_fc, is_exception := is_exception,
             exception_code := exception_code, role := role,
             register_range := register_range, device_id := device_id,
             diagnostic_subfunction := diagnostic_subfunction }

example :
    parse_modbus [0x00, 0x01, 0x00, 0x00, 0x00, 0x06, 0x01,
                  0x03, 0x00, 0x00, 0x00, 0x0A] 49152 502 =
    some { transaction_id := 1, unit_id := 1, function_code := 3,
           is_exception := false, exception_code := none, role := .Master,
           register_range := some { start := 0, count := 10,
                                    register_type := .HoldingRegister },
           device_id := none, diagnostic_subfunction := none } := by decide

/-! ## DNP3 deep parser (crates/gm-parsers/src/dnp3.rs) -/

/-- `enum Dnp3Role`. -/
inductive Dnp3Role where
  | Master
  | Outstation
  | Unknown
  deriving DecidableEq, Repr

/-- `struct Dnp3Info` — the result of a successful DNP3 parse. -/
structure Dnp3Info where
  source_address : Nat
  destination_address : Nat
  from_master : Bool
  is_primary : Bool
  function_code : Option Nat
  is_unsolicited : Bool
  role : Dnp3Role
  transport_seq : Option Nat
  transport_fin : Bool
  transport_fir : Bool
  app_sequence : Option Nat
  app_confirm_requested : Bool
  app_unsolicited : Bool
  deriving DecidableEq, Repr

/-- `parse_dnp3(payload, src_port, dst_port)`: data-link header checks
(length ≥ 10, start bytes 0x05 0x64), then optional transport and
application layer reads at offsets 10, 11 and 12. -/
def parse_dnp3 (payload : List Nat) (src_port dst_port : Nat) : Option Dnp3Info :=
  if payload.length < 10 then none
  else if payload.getD 0 0 ≠ 0x05 ∨ payload.getD 1 0 ≠ 0x64 then none
  else
    let control := payload.getD 3 0
    let destination_address := u16_le (payload.getD 4 0) (payload.getD 5 0)
    let source_address := u16_le (payload.getD 6 0) (payload.getD 7 0)
    let from_master : Bool := control &&& 0x80 != 0
    let is_primary : Bool := control &&& 0x40 != 0
    let role : Dnp3Role :=
      if from_master then .Master
      else if src_port = 20000 ∨ dst_port ≠ 20000 then .Outstation
      else .Unknown
    let has_transport := payload.length > 10
    let transport_byte := payload.getD 10 0
    let transport_fin : Bool := has_transport && (transport_byte &&& 0x80 != 0)
    let transport_fir : Bool := has_transport && (transport_byte &&& 0x40 != 0)
    let transport_seq : Option Nat :=
      if has_transport then some (transport_byte &&& 0x3F) else none
    let has_app_control := payload.length > 11
    let app_control := payload.getD 11 0
    let app_confirm_requested : Bool := has_app_control && (app_control &&& 0x20 != 0)
    let app_unsolicited : Bool := has_app_control && (app_control &&& 0x10 != 0)
    let app_sequence : Option Nat :=
      if has_app_control then some (app_control &&& 0x0F) else none
    let has_app_fc := payload.length > 12
    let fc := payload.getD 12 0
    let function_code : Option Nat := if has_app_fc then some fc else none
    let is_unsolicited : Bool := has_app_fc && (fc == 130)
    some { source_address := source_address,
           destination_address := destination_address,
           from_master := from_master, is_primary := is_primary,
           function_code := function_code, is_unsolicited := is_unsolicited,
           role := role, transport_seq := transport_seq,
           transport_fin := transport_fin, transport_fir := transport_fir,
           app_sequence := app_sequence,
           app_confirm_requested := app_confirm_requested,
           app_unsolicited := app_unsolicited }

example :
    (parse_dnp3 [0x05, 0x64, 0x05, 0x00, 0x64, 0x00, 0x01, 0x00, 0x00, 0x00,
                 0xC0, 0xD0, 0x82] 20000 49152).map
      (fun i => (i.role, i.is_unsolicited, i.function_code, i.app_unsolicited)) =
    some (Dnp3Role.Outstation, true, some 130, true) := by decide

/-! ## Association-list models of `HashMap` / `HashSet`

Rust `HashMap`s are embedded as association lists: `mapGet` models
`get`/`contains_key`, `mapInsert` models `insert` (replace or append),
`mapUpdate` models the `entry(k).or_insert(dft)` + in-place mutation
pattern, `setInsert` models `HashSet::insert`. -/

/-- Lookup in an association list (`HashMap::get`). -/
def mapGet {κ α : Type} [DecidableEq κ] : List (κ × α) → κ → Option α
  | [], _ => none
  | (k2, v) :: rest, k => if k2 = k then some v else mapGet rest k

/-- `HashMap::contains_key`. -/
def mapContains {κ α : Type} [DecidableEq κ] (m : List (κ × α)) (k : κ) : Bool :=
  (mapGet m k).isSome

/-- `HashMap::insert`: replace the value at the key, or append a new entry. -/
def mapInsert {κ α : Type} [DecidableEq κ] : List (κ × α) → κ → α → List (κ × α)
  | [], k, v => [(k, v)]
  | (k2, v2) :: rest, k, v =>
    if k2 = k then (k2, v) :: rest else (k2, v2) :: mapInsert rest k v

/-- `HashMap::entry(k).or_insert(dft)` followed by mutating the entry
with `f` (use `f := id` for a bare `or_insert`). -/
def mapUpdate {κ α : Type} [DecidableEq κ] : List (κ × α) → κ → α → (α → α) → List (κ × α)
  | [], k, dft, f => [(k, f dft)]
  | (k2, v) :: rest, k, dft, f =>
    if k2 = k then (k2, f v) :: rest else (k2, v) :: mapUpdate rest k dft f

/-- `HashSet::insert` on a duplicate-free list model. -/
def setInsert {α : Type} [DecidableEq α] (s : List α) (a : α) : List α :=
  if a ∈ s then s else s ++ [a]

/-! ## Topology builder (crates/gm-topology/src/lib.rs) -/

/-- The `Debug` rendering of a protocol tag (`format!("{:?}", protocol)`),
used as the third component of edge keys. -/
def IcsProtocol.debugStr : IcsProtocol → String
  | .Modbus => "Modbus"
  | .Dnp3 => "Dnp3"
  | .EthernetIp => "EthernetIp"
  | .Bacnet => "Bacnet"
  | .S7comm => "S7comm"
  | .OpcUa => "OpcUa"
  | .Profinet => "Profinet"
  | .Iec104 => "Iec104"
  | .Mqtt => "Mqtt"
  | .HartIp => "HartIp"
  | .FoundationFieldbus => "FoundationFieldbus"
  | .GeSrtp => "GeSrtp"
  | .WonderwareSuitelink => "WonderwareSuitelink"
  | .Http => "Http"
  | .Https => "Https"
  | .Dns => "Dns"
  | .Ssh => "Ssh"
  | .Rdp => "Rdp"
  | .Snmp => "Snmp"
  | .Unknown => "Unknown"

/-- Rust `str::split('.')` on the character list of a string: splits at
every dot, keeping empty pieces (so the result is always non-empty). -/
def split_on_dot : List Char → List (List Char)
  | [] => [[]]
  | c :: cs =>
    if c = '.' then [] :: split_on_dot cs
    else
      match split_on_dot cs with
      | [] => [[c]]
      | h :: t => (c :: h) :: t

/-- `extract_subnet(ip)`: `/24` label for four-part dotted strings,
otherwise the input itself. -/
def extract_subnet (ip : String) : String :=
  let parts := split_on_dot ip.data
  if parts.length = 4 then
    (parts.getD 0 []).asString ++ "." ++ (parts.getD 1 []).asString ++ "."
      ++ (parts.getD 2 []).asString ++ ".0/24"
  else
    ip

example : extract_subnet "192.168.1.100" = "192.168.1.0/24" := by decide
example : extract_subnet "fe80:0:0:0:0:0:0:1" = "fe80:0:0:0:0:0:0:1" := by decide

/-- `struct TopoNode`. -/
structure TopoNode where
  id : String
  ip_address : String
  mac_address : Option String
  device_type : String
  vendor : Option String
  protocols : List IcsProtocol
  subnet : String
  packet_count : Nat
  deriving DecidableEq, Repr

/-- `struct TopoEdge`. -/
structure TopoEdge where
  id : String
  source : String
  target : String
  protocol : IcsProtocol
  packet_count : Nat
  byte_count : Nat
  bidirectional : Bool
  deriving DecidableEq, Repr

/-- `struct TopologyBuilder`: nodes keyed by IP, edges keyed by
`(src_ip, dst_ip, protocol)`, plus the id counter. -/
structure TopologyBuilder where
  nodes : List (String × TopoNode)
  edges : List ((String × String × String) × TopoEdge)
  edge_counter : Nat
  deriving DecidableEq, Repr

/-- `TopologyBuilder::new()`. -/
def TopologyBuilder.new : TopologyBuilder :=
  { nodes := [], edges := [], edge_counter := 0 }

/-- `TopologyBuilder::ensure_node`: insert a fresh node on first sight,
then bump its packet count, backfill a missing MAC, and record the
protocol. -/
def TopologyBuilder.ensure_node (b : TopologyBuilder) (ip : String)
    (mac : Option String) (protocol : IcsProtocol) : TopologyBuilder :=
  let fresh : TopoNode :=
    { id := ip, ip_address := ip, mac_address := mac,
      device_type := "unknown", vendor := none, protocols := [],
      subnet := extract_subnet ip, packet_count := 0 }
  let touch : TopoNode → TopoNode := fun node =>
    let node := { node with packet_count := node.packet_count + 1 }
    let node :=
      if node.mac_address = none then { node with mac_address := mac } else node
    if node.protocols.contains protocol then node
    else { node with protocols := node.protocols ++ [protocol] }
  { b with nodes := mapUpdate b.nodes ip fresh touch }

/-- `TopologyBuilder::add_connection`: ensure both endpoint nodes, check
for the reverse-direction edge, then create-or-update the forward edge,
setting its `bidirectional` flag when the reverse edge was present. -/
def TopologyBuilder.add_connection (b : TopologyBuilder)
    (src_ip dst_ip : String) (src_mac dst_mac : Option String)
    (protocol : IcsProtocol) (bytes : Nat) : TopologyBuilder :=
  let b := b.ensure_node src_ip src_mac protocol
  let b := b.ensure_node dst_ip dst_mac protocol
  let proto_str := protocol.debugStr
  let key := (src_ip, dst_ip, proto_str)
  let reverse_key := (dst_ip, src_ip, proto_str)
  let has_reverse := mapContains b.edges reverse_key
  let (edge0, edge_counter) :=
    match mapGet b.edges key with
    | some e => (e, b.edge_counter)
    | none =>
      ({ id := "e" ++ toString (b.edge_counter + 1), source := src_ip,
         target := dst_ip, protocol := protocol, packet_count := 0,
         byte_count := 0, bidirectional := false }, b.edge_counter + 1)
  let edge := { edge0 with packet_count := edge0.packet_count + 1,
                           byte_count := edge0.byte_count + bytes }
  let edge := if has_reverse then { edge with bidirectional := true } else edge
  { b with edges := mapInsert b.edges key edge, edge_counter := edge_counter }

/-- One `add_connection` observation, for replaying call sequences. -/
structure ConnObs where
  src_ip : String
  dst_ip : String
  src_mac : Option String
  dst_mac : Option String
  protocol : IcsProtocol
  bytes : Nat
  deriving DecidableEq, Repr

/-- Replay a sequence of `add_connection` calls on an empty builder. -/
def runTopology (obs : List ConnObs) : TopologyBuilder :=
  obs.foldl
    (fun b o => b.add_connection o.src_ip o.dst_ip o.src_mac o.dst_mac o.protocol o.bytes)
    TopologyBuilder.new

/-! ## Packet processor (src/src-tauri/src/commands/processor.rs) -/

/-- `enum TransportProtocol` (crates/gm-capture/src/packet.rs). -/
inductive TransportProtocol where
  | Tcp
  | Udp
  | Other
  deriving DecidableEq, Repr

/-- `format!("{:?}", transport).to_lowercase()`. -/
def TransportProtocol.lowerStr : TransportProtocol → String
  | .Tcp => "tcp"
  | .Udp => "udp"
  | .Other => "other"

/-- Model of a `chrono::DateTime<Utc>` value, exposing exactly the three
operations the processor uses: `to_rfc3339()`, `timestamp()` and
`timestamp_subsec_millis()`. -/
structure DateTimeUtc where
  secs : Int
  millis : Nat
  rfc3339 : String
  deriving DecidableEq, Repr

/-- `struct ParsedPacket` (crates/gm-capture/src/packet.rs). -/
structure ParsedPacket where
  timestamp : DateTimeUtc
  src_mac : Option String
  dst_mac : Option String
  src_ip : String
  dst_ip : String
  transport : TransportProtocol
  src_port : Nat
  dst_port : Nat
  length : Nat
  payload : List Nat
  origin_file : String
  deriving DecidableEq, Repr

/-- `identify_protocol(packet)`: port-based identification (the
payload-based second pass is not implemented in the source). -/
def identify_protocol (packet : ParsedPacket) : IcsProtocol :=
  identify_by_port packet.src_port packet.dst_port

/-- `enum DeepParseResult` (crates/gm-parsers/src/lib.rs). -/
inductive DeepParseResult where
  | Modbus (info : ModbusInfo)
  | Dnp3 (info : Dnp3Info)
  deriving DecidableEq, Repr

/-- `deep_parse(packet, protocol)`: dispatch to the Modbus or DNP3 parser. -/
def deep_parse (packet : ParsedPacket) (protocol : IcsProtocol) :
    Option DeepParseResult :=
  match protocol with
  | .Modbus =>
    (parse_modbus packet.payload packet.src_port packet.dst_port).map .Modbus
  | .Dnp3 =>
    (parse_dnp3 packet.payload packet.src_port packet.dst_port).map .Dnp3
  | _ => none

/-- `struct ConnectionInfo` (src/src-tauri/src/commands/mod.rs). -/
structure ConnectionInfo where
  id : String
  src_ip : String
  src_port : Nat
  src_mac : Option String
  dst_ip : String
  dst_port : Nat
  dst_mac : Option String
  protocol : String
  transport : String
  packet_count : Nat
  byte_count : Nat
  first_seen : String
  last_seen : String
  origin_files : List String
  deriving DecidableEq, Repr

/-- `struct PacketSummary` (src/src-tauri/src/commands/mod.rs). -/
structure PacketSummary where
  timestamp : String
  src_ip : String
  dst_ip : String
  src_port : Nat
  dst_port : Nat
  protocol : String
  length : Nat
  origin_file : String
  deriving DecidableEq, Repr

/-- `struct PacketData` (crates/gm-signatures), the per-IP buffer entry
used for signature matching. -/
structure PacketData where
  src_ip : String
  dst_ip : String
  src_port : Nat
  dst_port : Nat
  src_mac : Option String
  dst_mac : Option String
  transport : String
  protocol : String
  payload : List Nat
  length : Nat
  deriving DecidableEq, Repr

/-- `is_server_port(port)`: the well-known OT/ICS service ports of the
processor. -/
def is_server_port (port : Nat) : Bool :=
  decide (port = 102 ∨ port = 502 ∨ port = 1089 ∨ port = 1090 ∨ port = 1091
    ∨ port = 1883 ∨ port = 2222 ∨ port = 2404 ∨ port = 4840 ∨ port = 5007
    ∨ port = 5094 ∨ port = 8883 ∨ port = 18245 ∨ port = 18246 ∨ port = 20000
    ∨ port = 34962 ∨ port = 34963 ∨ port = 34964 ∨ port = 44818 ∨ port = 47808)

/-- `struct PacketProcessor`: the aggregator state. `uuid_counter` models
the freshness of `Uuid::new_v4()` connection ids; polling timestamps are
kept as exact rationals in place of `f64` epoch seconds. -/
structure PacketProcessor where
  topo_builder : TopologyBuilder
  connections : List (String × ConnectionInfo)
  packet_summaries : List (String × List PacketSummary)
  asset_protocols : List (String × List IcsProtocol)
  asset_macs : List (String × String)
  asset_packet_counts : List (String × Nat)
  asset_first_seen : List (String × String)
  asset_last_seen : List (String × String)
  server_ips : List String
  all_protocols : List String
  conn_origin_files : List (String × List String)
  modbus_fc_counts : List (String × List (Nat × Nat))
  modbus_unit_ids : List (String × List Nat)
  modbus_register_ranges : List (String × List ((Nat × Nat × String) × Nat))
  modbus_roles : List (String × List String)
  modbus_device_ids : List (String × ModbusDeviceId)
  modbus_relationships : List (String × List (String × (String × List Nat × Nat)))
  modbus_polling_timestamps : List ((String × String × Nat × Nat) × List Rat)
  dnp3_fc_counts : List (String × List (Nat × Nat))
  dnp3_addresses : List (String × List Nat)
  dnp3_roles : List (String × List String)
  dnp3_unsolicited : List (String × Bool)
  dnp3_relationships : List (String × List (String × (String × Nat)))
  ip_packets : List (String × List PacketData)
  uuid_counter : Nat
  total_packets : Nat

/-- `PacketProcessor::new()`. -/
def PacketProcessor.new : PacketProcessor :=
  { topo_builder := TopologyBuilder.new, connections := [],
    packet_summaries := [], asset_protocols := [], asset_macs := [],
    asset_packet_counts := [], asset_first_seen := [], asset_last_seen := [],
    server_ips := [], all_protocols := [], conn_origin_files := [],
    modbus_fc_counts := [], modbus_unit_ids := [],
    modbus_register_ranges := [], modbus_roles := [],
    modbus_device_ids := [], modbus_relationships := [],
    modbus_polling_timestamps := [], dnp3_fc_counts := [],
    dnp3_addresses := [], dnp3_roles := [], dnp3_unsolicited := [],
    dnp3_relationships := [], ip_packets := [], uuid_counter := 0,
    total_packets := 0 }

/-- `format!("{:?}", register_type).to_lowercase()`. -/
def RegisterType.lowerStr : RegisterType → String
  | .Coil => "coil"
  | .DiscreteInput => "discreteinput"
  | .HoldingRegister => "holdingregister"
  | .InputRegister => "inputregister"

/-- `PacketProcessor::process_modbus`: fold one Modbus parse result into
the per-IP Modbus accumulators. -/
def PacketProcessor.process_modbus (s : PacketProcessor) (packet : ParsedPacket)
    (info : ModbusInfo) (ts_epoch : Rat) : PacketProcessor :=
  -- the Rust `match info.role` returns `&packet.src_ip` in every arm
  let ip_for_fc := packet.src_ip
  let fc_counts :=
    mapUpdate s.modbus_fc_counts ip_for_fc []
      (fun m => mapUpdate m info.function_code 0 (fun n => n + 1))
  let s := { s with modbus_fc_counts := fc_counts }
  let unit_ids :=
    mapUpdate s.modbus_unit_ids ip_for_fc [] (fun ids => setInsert ids info.unit_id)
  let s := { s with modbus_unit_ids := unit_ids }
  let role_str := match info.role with
    | .Master => "master"
    | .Slave => "slave"
    | .Unknown => "unknown"
  let roles :=
    mapUpdate s.modbus_roles ip_for_fc [] (fun rs => setInsert rs role_str)
  let s := { s with modbus_roles := roles }
  let s := match info.register_range with
    | some range =>
      let ranges :=
        mapUpdate s.modbus_register_ranges ip_for_fc []
          (fun m => mapUpdate m (range.start, range.count,
              range.register_type.lowerStr) 0 (fun n => n + 1))
      { s with modbus_register_ranges := ranges }
    | none => s
  let s := match info.device_id with
    | some dev_id =>
      { s with modbus_device_ids := mapInsert s.modbus_device_ids packet.src_ip dev_id }
    | none => s
  -- the Rust `match info.role` yields (src_ip, dst_ip, remote_role) with
  -- remote_role depending on the role
  let remote_role := match info.role with
    | .Master => "slave"
    | .Slave => "master"
    | .Unknown => "unknown"
  let rels :=
    mapUpdate s.modbus_relationships packet.src_ip []
      (fun rs => mapUpdate rs packet.dst_ip (remote_role, [], 0)
        (fun rel => (rel.1, setInsert rel.2.1 info.unit_id, rel.2.2 + 1)))
  let s := { s with modbus_relationships := rels }
  if info.role = .Master ∧ info.is_exception = false then
    let polling :=
      mapUpdate s.modbus_polling_timestamps
        (packet.src_ip, packet.dst_ip, info.function_code, info.unit_id) []
        (fun ts => ts ++ [ts_epoch])
    { s with modbus_polling_timestamps := polling }
  else s

/-- `PacketProcessor::process_dnp3`: fold one DNP3 parse result into the
per-IP DNP3 accumulators. -/
def PacketProcessor.process_dnp3 (s : PacketProcessor) (packet : ParsedPacket)
    (info : Dnp3Info) : PacketProcessor :=
  let ip_for_fc := packet.src_ip
  let s := match info.function_code with
    | some fc =>
      let fc_counts :=
        mapUpdate s.dnp3_fc_counts ip_for_fc []
          (fun m => mapUpdate m fc 0 (fun n => n + 1))
      { s with dnp3_fc_counts := fc_counts }
    | none => s
  let addrs :=
    mapUpdate s.dnp3_addresses ip_for_fc []
      (fun ads => setInsert ads info.source_address)
  let s := { s with dnp3_addresses := addrs }
  let role_str := match info.role with
    | .Master => "master"
    | .Outstation => "outstation"
    | .Unknown => "unknown"
  let roles :=
    mapUpdate s.dnp3_roles ip_for_fc [] (fun rs => setInsert rs role_str)
  let s := { s with dnp3_roles := roles }
  let s := if info.is_unsolicited then
      { s with dnp3_unsolicited := mapInsert s.dnp3_unsolicited ip_for_fc true }
    else s
  let remote_role := match info.role with
    | .Master => "outstation"
    | .Outstation => "master"
    | .Unknown => "unknown"
  let rels :=
    mapUpdate s.dnp3_relationships ip_for_fc []
      (fun rs => mapUpdate rs packet.dst_ip (remote_role, 0)
        (fun rel => (rel.1, rel.2 + 1)))
  { s with dnp3_relationships := rels }

/-- The asset-fact tracking section of `process_packet`: protocol sets,
MACs, per-IP packet counts, first/last seen. -/
def PacketProcessor.track_asset_facts (s : PacketProcessor) (packet : ParsedPacket)
    (protocol : IcsProtocol) (timestamp : String) : PacketProcessor :=
  let aps :=
    mapUpdate (mapUpdate s.asset_protocols packet.src_ip []
        (fun ps => setInsert ps protocol))
      packet.dst_ip [] (fun ps => setInsert ps protocol)
  let s := { s with asset_protocols := aps }
  let s := match packet.src_mac with
    | some mac => { s with asset_macs := mapUpdate s.asset_macs packet.src_ip mac id }
    | none => s
  let s := match packet.dst_mac with
    | some mac => { s with asset_macs := mapUpdate s.asset_macs packet.dst_ip mac id }
    | none => s
  let counts :=
    mapUpdate (mapUpdate s.asset_packet_counts packet.src_ip 0 (fun n => n + 1))
      packet.dst_ip 0 (fun n => n + 1)
  let s := { s with asset_packet_counts := counts }
  let firsts :=
    mapUpdate (mapUpdate s.asset_first_seen packet.src_ip timestamp id)
      packet.dst_ip timestamp id
  let s := { s with asset_first_seen := firsts }
  let lasts :=
    mapInsert (mapInsert s.asset_last_seen packet.src_ip timestamp)
      packet.dst_ip timestamp
  { s with asset_last_seen := lasts }

/-- The server-detection section of `process_packet`: well-known OT
service ports mark either endpoint as a server. -/
def PacketProcessor.track_servers (s : PacketProcessor) (packet : ParsedPacket) :
    PacketProcessor :=
  let s := if is_server_port packet.dst_port then
      { s with server_ips := setInsert s.server_ips packet.dst_ip }
    else s
  if is_server_port packet.src_port then
    { s with server_ips := setInsert s.server_ips packet.src_ip }
  else s

/-- The connection-tracking section of `process_packet`: create-or-update
the record at the 5-tuple key (fresh records draw a new id from the
uuid counter). Returns the updated record for the summary step. -/
def PacketProcessor.update_connection (s : PacketProcessor) (packet : ParsedPacket)
    (conn_key proto_str timestamp : String) : PacketProcessor × ConnectionInfo :=
  let (conn0, uuid_counter) :=
    match mapGet s.connections conn_key with
    | some c => (c, s.uuid_counter)
    | none =>
      ({ id := "uuid-" ++ toString s.uuid_counter, src_ip := packet.src_ip,
         src_port := packet.src_port, src_mac := packet.src_mac,
         dst_ip := packet.dst_ip, dst_port := packet.dst_port,
         dst_mac := packet.dst_mac, protocol := proto_str,
         transport := packet.transport.lowerStr, packet_count := 0,
         byte_count := 0, first_seen := timestamp, last_seen := timestamp,
         origin_files := [] }, s.uuid_counter + 1)
  let conn := { conn0 with packet_count := conn0.packet_count + 1,
                           byte_count := conn0.byte_count + packet.length,
                           last_seen := timestamp }
  ({ s with connections := mapInsert s.connections conn_key conn,
            uuid_counter := uuid_counter }, conn)

/-- The per-connection origin-file set and bounded packet-summary
section of `process_packet`. -/
def PacketProcessor.track_summary (s : PacketProcessor) (packet : ParsedPacket)
    (conn : ConnectionInfo) (conn_key proto_str timestamp : String) :
    PacketProcessor :=
  let origin_files :=
    mapUpdate s.conn_origin_files conn_key []
      (fun files => setInsert files packet.origin_file)
  let s := { s with conn_origin_files := origin_files }
  let summary : PacketSummary :=
    { timestamp := timestamp, src_ip := packet.src_ip, dst_ip := packet.dst_ip,
      src_port := packet.src_port, dst_port := packet.dst_port,
      protocol := proto_str, length := packet.length,
      origin_file := packet.origin_file }
  let summaries :=
    mapUpdate s.packet_summaries conn.id []
      (fun l => if l.length < 1000 then l ++ [summary] else l)
  { s with packet_summaries := summaries }

/-- The deep-parse dispatch section of `process_packet`. -/
def PacketProcessor.fold_deep_parse (s : PacketProcessor) (packet : ParsedPacket)
    (protocol : IcsProtocol) : PacketProcessor :=
  match deep_parse packet protocol with
  | some deep_result =>
    let ts_epoch : Rat :=
      (packet.timestamp.secs : Rat) + (packet.timestamp.millis : Rat) / 1000
    match deep_result with
    | .Modbus info => s.process_modbus packet info ts_epoch
    | .Dnp3 info => s.process_dnp3 packet info
  | none => s

/-- The topology feed and per-IP signature-buffer section of
`process_packet`. -/
def PacketProcessor.track_topology_and_buffers (s : PacketProcessor)
    (packet : ParsedPacket) (protocol : IcsProtocol) : PacketProcessor :=
  let topo :=
    s.topo_builder.add_connection packet.src_ip packet.dst_ip
      packet.src_mac packet.dst_mac protocol packet.length
  let s := { s with topo_builder := topo }
  let pkt_data : PacketData :=
    { src_ip := packet.src_ip, dst_ip := packet.dst_ip,
      src_port := packet.src_port, dst_port := packet.dst_port,
      src_mac := packet.src_mac, dst_mac := packet.dst_mac,
      transport := packet.transport.lowerStr,
      protocol := protocol.debugStr.toLower, payload := packet.payload,
      length := packet.length }
  let buffers :=
    mapUpdate (mapUpdate s.ip_packets packet.src_ip []
        (fun l => l ++ [pkt_data]))
      packet.dst_ip [] (fun l => l ++ [pkt_data])
  { s with ip_packets := buffers }

/-- `PacketProcessor::process_packet`: the per-packet pipeline step —
protocol identification, asset fact tracking, server detection,
connection tracking, bounded packet summaries, deep-parse folding,
topology feed, and per-IP signature buffers, in source order. -/
def PacketProcessor.process_packet (s : PacketProcessor) (packet : ParsedPacket) :
    PacketProcessor :=
  let protocol := identify_protocol packet
  let proto_str := protocol.debugStr
  let s := { s with all_protocols := setInsert s.all_protocols proto_str,
                    total_packets := s.total_packets + 1 }
  let timestamp := packet.timestamp.rfc3339
  let s := s.track_asset_facts packet protocol timestamp
  let s := s.track_servers packet
  let conn_key := packet.src_ip ++ ":" ++ toString packet.src_port ++ "->"
    ++ packet.dst_ip ++ ":" ++ toString packet.dst_port ++ ":" ++ proto_str
  let sc := s.update_connection packet conn_key proto_str timestamp
  let s := sc.1
  let conn := sc.2
  let s := s.track_summary packet conn conn_key proto_str timestamp
  let s := s.fold_deep_parse packet protocol
  s.track_topology_and_buffers packet protocol

/-- Replay a packet sequence through the processor from a fresh state. -/
def runProcessor (packets : List ParsedPacket) : PacketProcessor :=
  packets.foldl PacketProcessor.process_packet PacketProcessor.new
/-! ## Asset classification (src/src-tauri/src/commands/processor.rs, build_assets) -/

/-- `struct AssetSignatureMatch` (src/src-tauri/src/commands/mod.rs). -/
structure AssetSignatureMatch where
  signature_name : String
  confidence : Nat
  vendor : Option String
  product_family : Option String
  device_type : Option String
  role : Option String
  deriving DecidableEq, Repr

/-- The classification fields of one asset record. -/
structure AssetClassification where
  device_type : String
  confidence : Nat
  vendor : Option String
  product_family : Option String
  deriving DecidableEq, Repr

/-- The per-IP classification slice of `PacketProcessor::build_assets`:
device type inference, confidence, vendor and product family. External
engine results enter as arguments: `sig_matches` is the
confidence-descending result of `match_device_packets` for the IP (so its
head is the best match), `oui_vendor` the OUI lookup of the asset MAC,
and `modbus_device_id` the accumulated FC 43/14 record for the IP. -/
def build_asset_classification (protocols : List IcsProtocol) (is_server : Bool)
    (sig_matches : List AssetSignatureMatch) (oui_vendor : Option String)
    (modbus_device_id : Option ModbusDeviceId) : AssetClassification :=
  let device_type := infer_device_type protocols is_server
  let best_match := sig_matches.head?
  let confidence := match best_match with
    | some m => m.confidence
    | none => if protocols.any (fun p => p != IcsProtocol.Unknown) then 1 else 0
  let vendor := best_match.bind (fun m => m.vendor)
  let product_family := best_match.bind (fun m => m.product_family)
  -- if no signature vendor but OUI found, use OUI vendor + confidence 3
  let vc := if vendor.isNone then
      match oui_vendor with
      | some oui_v => (some oui_v, if confidence < 3 then 3 else confidence)
      | none => (vendor, confidence)
    else (vendor, confidence)
  let vendor := vc.1
  let confidence := vc.2
  -- deep-parse device ID (FC 43/14) overrides with confidence 5
  let cvp := match modbus_device_id with
    | some dev_id =>
      let vendor := match dev_id.vendor_name with
        | some vn => some vn
        | none => vendor
      let pf_parts :=
        [dev_id.product_code, dev_id.product_name, dev_id.model_name].filterMap id
      let product_family :=
        if pf_parts.isEmpty then product_family
        else some (String.intercalate " " pf_parts)
      (5, vendor, product_family)
    | none => (confidence, vendor, product_family)
  let confidence := cvp.1
  let vendor := cvp.2.1
  let product_family := cvp.2.2
  -- a signature match of confidence >= 3 overrides the device type
  let device_type := match best_match with
    | some m =>
      match m.device_type with
      | some sig_device_type =>
        if m.confidence ≥ 3 then sig_device_type else device_type
      | none => device_type
    | none => device_type
  { device_type := device_type, confidence := confidence,
    vendor := vendor, product_family := product_family }

/-! ## Analysis pass inputs (gm-analysis crate)

The gm-analysis crate root (`lib.rs`) is not present under src/ — only
`attack.rs`, `purdue.rs`, `anomaly.rs` and `error.rs` are. The shared
types it declares (`Severity`, `FindingType`, `Finding`, `AssetSnapshot`,
`ConnectionSnapshot`, `AnalysisInput`, `PurdueAssignment`) are therefore
modelled from the spec and from their uses in the detector sources. -/

/-- Modelled from the spec: the severity scale of findings; the analyses
deduplicate "keeping the highest severity", ordered
Low < Medium < High < Critical. The `Ord` derive of the missing crate
root is modelled by `Severity.rank`. -/
inductive Severity where
  | Low
  | Medium
  | High
  | Critical
  deriving DecidableEq, Repr

/-- Modelled from the spec: position of a severity on the scale. -/
def Severity.rank : Severity → Nat
  | .Low => 0
  | .Medium => 1
  | .High => 2
  | .Critical => 3

/-- Modelled from the spec: the finding categories produced by the
detectors present in src/. -/
inductive FindingType where
  | AttackTechnique
  | PurdueViolation
  deriving DecidableEq, Repr

/-- Modelled from the spec: a security finding. Field order follows the
`Finding::new(finding_type, severity, title, description,
affected_assets, evidence, technique_id)` call sites in src/. -/
structure Finding where
  finding_type : FindingType
  severity : Severity
  title : String
  description : String
  affected_assets : List String
  evidence : String
  technique_id : Option String
  deriving DecidableEq, Repr

/-- Modelled from the spec: the per-asset snapshot consumed by analysis
passes (fields as used by the detectors and their tests in src/). -/
structure AssetSnapshot where
  ip_address : String
  device_type : String
  protocols : List String
  purdue_level : Option Nat
  is_public_ip : Bool
  tags : List String
  vendor : Option String
  deriving DecidableEq, Repr

/-- Modelled from the spec: the per-connection snapshot consumed by
analysis passes. -/
structure ConnectionSnapshot where
  src_ip : String
  dst_ip : String
  src_port : Nat
  dst_port : Nat
  protocol : String
  packet_count : Nat
  deriving DecidableEq, Repr

/-- Modelled from the spec: the read-only view handed to the analysis
passes. (The full input also carries per-IP deep-parse snapshots, which
the two detectors embedded here do not read.) -/
structure AnalysisInput where
  assets : List AssetSnapshot
  connections : List ConnectionSnapshot
  deriving DecidableEq, Repr

/-- Modelled from the spec: how a Purdue level was assigned. -/
inductive PurdueMethod where
  | Manual
  | Auto
  deriving DecidableEq, Repr

/-- Modelled from the spec: one Purdue level assignment. -/
structure PurdueAssignment where
  ip_address : String
  level : Nat
  method : PurdueMethod
  reason : String
  deriving DecidableEq, Repr

/-! ## ATT&CK T0846 detector (crates/gm-analysis/src/attack.rs) -/

/-- `OT_SERVER_PORTS` of attack.rs. -/
def OT_SERVER_PORTS : List Nat :=
  [102, 502, 1089, 1090, 1091, 2222, 2404, 4840,
   5007, 5094, 18245, 18246, 20000, 34962, 34963, 34964, 44818, 47808]

/-- The `matches!` device-type test used to build `ot_device_ips`. -/
def is_ot_device_type (dt : String) : Bool :=
  decide (dt = "plc" ∨ dt = "rtu" ∨ dt = "hmi" ∨ dt = "historian"
    ∨ dt = "engineering_workstation" ∨ dt = "scada_server")

/-- `detect_t0846_remote_discovery(input)`: collect, per non-OT source,
the set of distinct destinations reached on OT server ports; emit one
High finding for every source with at least 3 such destinations. -/
def detect_t0846_remote_discovery (input : AnalysisInput) : List Finding :=
  let ot_device_ips :=
    (input.assets.filter (fun a => is_ot_device_type a.device_type)).map
      (fun a => a.ip_address)
  let scanner_targets := input.connections.foldl
    (fun m conn =>
      if ¬ (OT_SERVER_PORTS.contains conn.dst_port) then m
      else
        let src_asset := input.assets.find? (fun a => a.ip_address == conn.src_ip)
        let is_known_ot := ot_device_ips.contains conn.src_ip
        if is_known_ot then m
        else
          let src_type := match src_asset with
            | some a => a.device_type
            | none => "unknown"
          if src_type = "it_device" ∨ src_type = "unknown" then
            mapUpdate m conn.src_ip [] (fun ts => setInsert ts conn.dst_ip)
          else m)
    ([] : List (String × List String))
  (scanner_targets.filter (fun p => decide (p.2.length ≥ 3))).map
    (fun p =>
      { finding_type := .AttackTechnique, severity := .High,
        title := "Unknown device " ++ p.1 ++ " polling "
          ++ toString p.2.length ++ " PLCs/RTUs",
        description := "A device not classified as OT equipment is connecting to "
          ++ "multiple ICS devices on well-known OT service ports. This "
          ++ "behavior resembles network reconnaissance or unauthorized polling.",
        affected_assets := p.1 :: p.2,
        evidence := "Device " ++ p.1 ++ " connected to OT ports on "
          ++ toString p.2.length ++ " targets: " ++ String.intercalate ", " p.2,
        technique_id := some "T0846" })

/-! ## Purdue cross-level violation detector (crates/gm-analysis/src/purdue.rs) -/

/-- The `ip -> level` map of `detect_purdue_violations` (`collect` into a
`HashMap`, so a later assignment for the same IP overwrites an earlier
one). -/
def purdue_level_map (assignments : List PurdueAssignment) : List (String × Nat) :=
  assignments.foldl (fun m a => mapInsert m a.ip_address a.level) []

/-- The Medium L1-L4+ finding pushed by `detect_purdue_violations`. -/
def purdue_medium_finding (conn : ConnectionSnapshot) (src_level dst_level : Nat) :
    Finding :=
  { finding_type := .PurdueViolation, severity := .Medium,
    title := "Cross-zone communication: L" ++ toString src_level
      ++ " (" ++ conn.src_ip ++ ") <-> L" ++ toString dst_level
      ++ " (" ++ conn.dst_ip ++ ")",
    description := "Direct communication detected between Purdue Level "
      ++ toString (min src_level dst_level) ++ " and Level "
      ++ toString (max src_level dst_level)
      ++ ". The Purdue Model requires a DMZ (L3.5) between control systems (L0-L3) "
      ++ "and enterprise IT (L4-5). Direct L1<->L4+ communication bypasses this "
      ++ "security boundary.",
    affected_assets := [conn.src_ip, conn.dst_ip],
    evidence := conn.src_ip ++ " (L" ++ toString src_level
      ++ ") communicating with " ++ conn.dst_ip ++ " (L"
      ++ toString dst_level ++ ") on port " ++ toString conn.dst_port
      ++ " (" ++ toString conn.packet_count ++ " packets)",
    technique_id := some "T0886" }

/-- The Low L2-L4+ finding pushed by `detect_purdue_violations`. -/
def purdue_low_finding (conn : ConnectionSnapshot) (src_level dst_level : Nat) :
    Finding :=
  { finding_type := .PurdueViolation, severity := .Low,
    title := "L2-L4 direct communication: " ++ conn.src_ip
      ++ " <-> " ++ conn.dst_ip,
    description := "HMI/supervisory (L2) communicating directly with enterprise IT (L4+). "
      ++ "Best practice requires routing through a DMZ (L3.5).",
    affected_assets := [conn.src_ip, conn.dst_ip],
    evidence := conn.src_ip ++ " (L" ++ toString src_level ++ ") <-> "
      ++ conn.dst_ip ++ " (L" ++ toString dst_level ++ ") on port "
      ++ toString conn.dst_port ++ ", "
      ++ toString conn.packet_count ++ " packets",
    technique_id := some "T0886" }

/-- The connection loop of `detect_purdue_violations`: per directed
connection with both endpoint levels known, a Medium L1-L4+ finding
and/or a Low L2-L4+ finding, both tagged T0886. -/
def purdue_violation_findings (input : AnalysisInput)
    (assignments : List PurdueAssignment) : List Finding :=
  let level_map := purdue_level_map assignments
  input.connections.flatMap (fun conn =>
    match mapGet level_map conn.src_ip, mapGet level_map conn.dst_ip with
    | some src_level, some dst_level =>
      let medium :=
        if (src_level ≤ 1 ∧ dst_level ≥ 4) ∨ (src_level ≥ 4 ∧ dst_level ≤ 1) then
          [purdue_medium_finding conn src_level dst_level]
        else []
      let low :=
        if (src_level = 2 ∧ dst_level ≥ 4) ∨ (src_level ≥ 4 ∧ dst_level = 2) then
          [purdue_low_finding conn src_level dst_level]
        else []
      medium ++ low
    | _, _ => [])

/-- One step of the dedup loop of `detect_purdue_violations`: findings
with at least two affected assets are grouped by their (possibly
reversed) leading asset pair, keeping the higher severity. -/
def dedup_step (st : List ((String × String) × Nat) × List Finding)
    (finding : Finding) : List ((String × String) × Nat) × List Finding :=
  let (seen, deduped) := st
  if finding.affected_assets.length ≥ 2 then
    let key := (finding.affected_assets.getD 0 "", finding.affected_assets.getD 1 "")
    let rev_key := (key.2, key.1)
    let hit := match mapGet seen key with
      | some idx => some idx
      | none => mapGet seen rev_key
    match hit with
    | some idx =>
      match deduped[idx]? with
      | some old =>
        if old.severity.rank < finding.severity.rank then
          (seen, deduped.set idx finding)
        else (seen, deduped)
      | none => (seen, deduped)
    | none => (mapInsert seen key deduped.length, deduped ++ [finding])
  else (seen, deduped ++ [finding])

/-- The dedup pass of `detect_purdue_violations`. -/
def dedup_findings (findings : List Finding) : List Finding :=
  (findings.foldl dedup_step ([], [])).2

/-- `detect_purdue_violations(input, assignments)`: the connection loop
followed by the unordered-pair dedup. -/
def detect_purdue_violations (input : AnalysisInput)
    (assignments : List PurdueAssignment) : List Finding :=
  dedup_findings (purdue_violation_findings input assignments)

/-! ## Public-IP predicate (crates/gm-db/src/geoip.rs) -/

/-- Model of `std::net::IpAddr`: four IPv4 octets or eight IPv6
16-bit segments. -/
inductive IpAddr where
  | V4 (o0 o1 o2 o3 : Nat)
  | V6 (s0 s1 s2 s3 s4 s5 s6 s7 : Nat)
  deriving DecidableEq, Repr

/-- The range checks of `GeoIpLookup::is_public_ip` on a parsed address:
private, CGNAT, loopback, link-local, zero-network and multicast ranges
are non-public for IPv4; loopback, unspecified, link-local, unique-local
and multicast for IPv6. -/
def is_public_ip_addr : IpAddr → Bool
  | .V4 o0 o1 _ _ =>
    if o0 = 10 then false
    else if o0 = 172 ∧ 16 ≤ o1 ∧ o1 ≤ 31 then false
    else if o0 = 192 ∧ o1 = 168 then false
    else if o0 = 100 ∧ 64 ≤ o1 ∧ o1 ≤ 127 then false
    else if o0 = 127 then false
    else if o0 = 169 ∧ o1 = 254 then false
    else if o0 = 0 then false
    else if 224 ≤ o0 then false
    else true
  | .V6 s0 s1 s2 s3 s4 s5 s6 s7 =>
    if (s0 = 0 ∧ s1 = 0 ∧ s2 = 0 ∧ s3 = 0 ∧ s4 = 0 ∧ s5 = 0 ∧ s6 = 0 ∧ s7 = 1)
        ∨ (s0 = 0 ∧ s1 = 0 ∧ s2 = 0 ∧ s3 = 0 ∧ s4 = 0 ∧ s5 = 0 ∧ s6 = 0 ∧ s7 = 0)
    then false
    else if s0 &&& 0xffc0 = 0xfe80 then false
    else if s0 &&& 0xfe00 = 0xfc00 then false
    else if s0 &&& 0xff00 = 0xff00 then false
    else true

/-- Rust `str::split(sep)` on a character list: splits at every
occurrence of `sep`, keeping empty pieces. -/
def split_on_char (sep : Char) : List Char → List (List Char)
  | [] => [[]]
  | c :: cs =>
    if c = sep then [] :: split_on_char sep cs
    else
      match split_on_char sep cs with
      | [] => [[c]]
      | h :: t => (c :: h) :: t

/-- Decimal digit-string value (used by the IPv4 octet parser). -/
def parse_decimal_digits (cs : List Char) : Option Nat :=
  if cs.isEmpty then none
  else if cs.all (fun c => c.isDigit) then
    some (cs.foldl (fun n c => 10 * n + (c.toNat - 48)) 0)
  else none

/-- One IPv4 octet as parsed by Rust std: decimal, no leading zero,
at most 255. -/
def parse_octet (cs : List Char) : Option Nat :=
  match parse_decimal_digits cs with
  | none => none
  | some v =>
    if 1 < cs.length ∧ cs.headD ' ' = '0' then none
    else if 255 < v then none
    else some v

/-- Model of Rust std dotted-quad IPv4 parsing. -/
def parse_ipv4 (cs : List Char) : Option (Nat × Nat × Nat × Nat) :=
  match split_on_dot cs with
  | [a, b, c, d] =>
    match parse_octet a, parse_octet b, parse_octet c, parse_octet d with
    | some x0, some x1, some x2, some x3 => some (x0, x1, x2, x3)
    | _, _, _, _ => none
  | _ => none

/-- Hexadecimal digit test. -/
def is_hex_digit (c : Char) : Bool :=
  c.isDigit || (decide ('a' ≤ c ∧ c ≤ 'f')) || (decide ('A' ≤ c ∧ c ≤ 'F'))

/-- Hexadecimal digit value. -/
def hex_val (c : Char) : Nat :=
  if c.isDigit then c.toNat - 48
  else if decide ('a' ≤ c ∧ c ≤ 'f') then c.toNat - 87
  else c.toNat - 55

/-- One IPv6 group: one to four hex digits. -/
def parse_hextet (cs : List Char) : Option Nat :=
  if cs.isEmpty ∨ 4 < cs.length then none
  else if cs.all is_hex_digit then
    some (cs.foldl (fun n c => 16 * n + hex_val c) 0)
  else none

/-- IPv6 groups to segments; the final group may be an embedded
dotted-quad IPv4 tail contributing two segments. -/
def parse_hex_groups : List (List Char) → Option (List Nat)
  | [] => some []
  | [g] =>
    if g.contains '.' then
      (parse_ipv4 g).map (fun q => [u16_be q.1 q.2.1, u16_be q.2.2.1 q.2.2.2])
    else (parse_hextet g).map (fun v => [v])
  | g :: rest =>
    match parse_hextet g, parse_hex_groups rest with
    | some v, some vs => some (v :: vs)
    | _, _ => none

/-- Split a character list at the first `::`, if any. -/
def split_double_colon : List Char → Option (List Char × List Char)
  | [] => none
  | ':' :: ':' :: rest => some ([], rest)
  | c :: rest => (split_double_colon rest).map (fun p => (c :: p.1, p.2))

/-- Model of Rust std IPv6 parsing: colon-separated hex groups, one
optional `::` compression standing for at least one zero group, and an
optional embedded IPv4 tail. Returns the eight 16-bit segments. -/
def parse_ipv6 (cs : List Char) : Option (List Nat) :=
  match split_double_colon cs with
  | some (left, right) =>
    let left_groups := if left.isEmpty then [] else split_on_char ':' left
    let right_groups := if right.isEmpty then [] else split_on_char ':' right
    match parse_hex_groups left_groups, parse_hex_groups right_groups with
    | some ls, some rs =>
      if ls.length + rs.length ≥ 8 then none
      else some (ls ++ List.replicate (8 - ls.length - rs.length) 0 ++ rs)
    | _, _ => none
  | none =>
    match parse_hex_groups (split_on_char ':' cs) with
    | some segs => if segs.length = 8 then some segs else none
    | none => none

/-- Model of `ip_str.parse::<IpAddr>()`: IPv4 form first, IPv6 second. -/
def parse_ip_addr (s : String) : Option IpAddr :=
  match parse_ipv4 s.data with
  | some (a, b, c, d) => some (.V4 a b c d)
  | none =>
    match parse_ipv6 s.data with
    | some [s0, s1, s2, s3, s4, s5, s6, s7] => some (.V6 s0 s1 s2 s3 s4 s5 s6 s7)
    | _ => none

/-- `GeoIpLookup::is_public_ip(ip_str)`: parse, then apply the range
checks; unparseable input is not public. -/
def is_public_ip (ip_str : String) : Bool :=
  match parse_ip_addr ip_str with
  | none => false
  | some ip => is_public_ip_addr ip

example : is_public_ip "8.8.8.8" = true := by decide
example : is_public_ip "100.128.0.1" = true := by decide
example : is_public_ip "10.0.0.1" = false := by decide
example : is_public_ip "255.255.255.255" = false := by decide
example : is_public_ip "not-an-ip" = false := by decide
example : is_public_ip "" = false := by decide
example : is_public_ip "fe80:0:0:0:0:0:0:1" = false := by decide
example : is_public_ip "2001:db8::1" = true := by decide
example : is_public_ip "::1" = false := by decide
example : is_public_ip "::ffff:8.8.8.8" = true := by decide

/-! ## Claim theorems -/

/-- Any list containing the SuiteLink tag has at least one OT protocol. -/
theorem ot_count_pos_of_suitelink (protocols : List IcsProtocol)
    (h : protocols.contains IcsProtocol.WonderwareSuitelink = true) :
    1 ≤ (protocols.filter (fun p => p.is_ot)).length := by
  have hmem : IcsProtocol.WonderwareSuitelink ∈ protocols := by
    simpa using h
  have hmemf : IcsProtocol.WonderwareSuitelink ∈
      protocols.filter (fun p => p.is_ot) := by
    simp [List.mem_filter, hmem, IcsProtocol.is_ot]
  exact List.length_pos.mpr (List.ne_nil_of_mem hmemf)

/-- C1: the spec's first-match-wins rule table says a SuiteLink-speaking
server is classified `scada_server` and an OPC UA-only server
`historian`; the code classifies both `unknown`, because the
`is_server ∧ N ≥ 1` branch captures every server with an OT protocol and
its inner fallback returns `unknown`. Consequently the `scada_server`
arm of `infer_device_type` is unreachable for every input. -/
theorem C1_infer_device_type_scada_server_unreachable :
    infer_device_type [.WonderwareSuitelink] true = "unknown" ∧
    infer_device_type [.OpcUa] true = "unknown" ∧
    ∀ (protocols : List IcsProtocol) (is_server : Bool),
      (infer_device_type protocols is_server == "scada_server") = false := by
  refine ⟨by decide, by decide, fun protocols is_server => ?_⟩
  simp only [infer_device_type]
  split
  · split
    · decide
    · split
      · decide
      · decide
  · next h1 =>
    split
    · next h2 =>
      exfalso
      rw [Bool.and_eq_true] at h2
      apply h1
      rw [Bool.and_eq_true]
      refine ⟨h2.2, ?_⟩
      simpa using ot_count_pos_of_suitelink protocols h2.1
    · split
      · decide
      · split
        · decide
        · split
          · decide
          · decide

/-- C1 witness: the dead-branch fact applied at a concrete input. -/
theorem C1_witness :
    (infer_device_type [IcsProtocol.WonderwareSuitelink] true == "scada_server")
      = false :=
  C1_infer_device_type_scada_server_unreachable.2.2 [.WonderwareSuitelink] true

/-- `split_on_dot` of a dot-free character list is the singleton list. -/
theorem split_on_dot_of_not_mem (cs : List Char) (h : '.' ∉ cs) :
    split_on_dot cs = [cs] := by
  induction cs with
  | nil => rfl
  | cons c cs ih =>
    have hc : c ≠ '.' := fun hcc => h (hcc ▸ List.mem_cons_self c cs)
    have hcs : '.' ∉ cs := fun hm => h (List.mem_cons_of_mem c hm)
    unfold split_on_dot
    rw [if_neg hc, ih hcs]

/-- C10: a topology node IP that does not split into exactly four
dot-separated parts keeps the IP string itself as its subnet label (in
particular any dot-free string, such as a non-compressed colon-hex IPv6
address, does); only four-part dotted strings get the `a.b.c.0/24`
label. -/
theorem C10_extract_subnet :
    ∀ ip : String,
      ((split_on_dot ip.data).length ≠ 4 → extract_subnet ip = ip) ∧
      ('.' ∉ ip.data → extract_subnet ip = ip) ∧
      ((split_on_dot ip.data).length = 4 →
        extract_subnet ip =
          ((split_on_dot ip.data).getD 0 []).asString ++ "."
            ++ ((split_on_dot ip.data).getD 1 []).asString ++ "."
            ++ ((split_on_dot ip.data).getD 2 []).asString ++ ".0/24") := by
  intro ip
  refine ⟨fun h => ?_, fun h => ?_, fun h => ?_⟩
  · unfold extract_subnet
    rw [if_neg h]
  · unfold extract_subnet
    rw [split_on_dot_of_not_mem ip.data h]
    simp
  · unfold extract_subnet
    rw [if_pos h]

/-- C10 witness: a full-form IPv6 node keeps its address as its subnet
label; a dotted-quad node gets the `/24` label. -/
theorem C10_witness :
    extract_subnet "fe80:0:0:0:0:0:0:1" = "fe80:0:0:0:0:0:0:1" ∧
    extract_subnet "192.168.1.100" = "192.168.1.0/24" :=
  ⟨(C10_extract_subnet "fe80:0:0:0:0:0:0:1").2.1 (by decide),
   by have := (C10_extract_subnet "192.168.1.100").2.2 (by decide); simpa using this⟩

/-- An empty PDU never yields a register range. -/
theorem parse_register_range_nil (fc : Nat) (role : ModbusRole) :
    parse_register_range fc [] role = none := by
  unfold parse_register_range
  cases h : register_type_of_fc fc with
  | none => rfl
  | some rt => simp

/-- An empty PDU never yields a device-identification record. -/
theorem parse_device_id_nil (role : ModbusRole) :
    parse_device_id [] role = none := by
  cases role <;> simp [parse_device_id]

/-- C6: `parse_modbus` returns `None` exactly on payloads shorter than 8
bytes or with a non-zero MBAP protocol id; and an 8-byte payload with
protocol id 0 parses to a record carrying transaction id, unit id and
the function code with every PDU-derived field
(`register_range`, `device_id`, `diagnostic_subfunction`,
`exception_code`) absent. -/
theorem C6_parse_modbus (payload : List Nat) (src_port dst_port : Nat) :
    (parse_modbus payload src_port dst_port = none ↔
      payload.length < 8 ∨ u16_be (payload.getD 2 0) (payload.getD 3 0) ≠ 0) ∧
    (payload.length = 8 → u16_be (payload.getD 2 0) (payload.getD 3 0) = 0 →
      ∃ info, parse_modbus payload src_port dst_port = some info ∧
        info.transaction_id = u16_be (payload.getD 0 0) (payload.getD 1 0) ∧
        info.unit_id = payload.getD 6 0 ∧
        info.function_code =
          (if 0x80 ≤ payload.getD 7 0 then payload.getD 7 0 &&& 0x7F
           else payload.getD 7 0) ∧
        info.register_range = none ∧ info.device_id = none ∧
        info.diagnostic_subfunction = none ∧ info.exception_code = none) := by
  constructor
  · by_cases h1 : payload.length < 8
    · simp [parse_modbus, h1]
    · by_cases h2 : u16_be (payload.getD 2 0) (payload.getD 3 0) = 0
      · simp [parse_modbus, h1, h2]
      · simp [parse_modbus, h1, h2]
  · intro hlen hpid
    have h1 : ¬ payload.length < 7 + 1 := by omega
    have hdrop : payload.drop 8 = [] := by
      have h := List.drop_length payload
      rw [hlen] at h
      exact h
    have h9 : ¬ payload.length ≥ 9 := by omega
    unfold parse_modbus
    rw [if_neg h1, if_neg (not_not_intro hpid), hdrop]
    refine ⟨_, rfl, ?_, ?_, ?_, ?_, ?_, ?_, ?_⟩
    · simp
    · simp
    · by_cases hfc : 0x80 ≤ payload.getD 7 0 <;> simp [hfc]
    · simp [parse_register_range_nil]
    · simp [parse_device_id_nil]
    · simp
    · simp [h9]

/-- C6 witness: an 8-byte FC 3 request header parses with no PDU-derived
fields, and the rejection characterization holds on it. -/
theorem C6_witness :
    ∃ info, parse_modbus [0, 1, 0, 0, 0, 1, 17, 3] 49152 502 = some info ∧
      info.transaction_id =
        u16_be ([0, 1, 0, 0, 0, 1, 17, 3].getD 0 0) ([0, 1, 0, 0, 0, 1, 17, 3].getD 1 0) ∧
      info.unit_id = [0, 1, 0, 0, 0, 1, 17, 3].getD 6 0 ∧
      info.function_code =
        (if 0x80 ≤ [0, 1, 0, 0, 0, 1, 17, 3].getD 7 0 then
          [0, 1, 0, 0, 0, 1, 17, 3].getD 7 0 &&& 0x7F
         else [0, 1, 0, 0, 0, 1, 17, 3].getD 7 0) ∧
      info.register_range = none ∧ info.device_id = none ∧
      info.diagnostic_subfunction = none ∧ info.exception_code = none :=
  (C6_parse_modbus [0, 1, 0, 0, 0, 1, 17, 3] 49152 502).2 (by decide) (by decide)

/-- C9: a Modbus payload whose function-code byte has bit 7 set parses
as an exception response whose reported function code is the raw byte
with bit 7 cleared — always below 0x80, so the raw value is never
exposed as the function code. -/
theorem C9_parse_modbus_exception (payload : List Nat) (src_port dst_port : Nat)
    (hlen : 8 ≤ payload.length)
    (hpid : u16_be (payload.getD 2 0) (payload.getD 3 0) = 0)
    (hfc : 0x80 ≤ payload.getD 7 0) :
    ∃ info, parse_modbus payload src_port dst_port = some info ∧
      info.is_exception = true ∧
      info.function_code = payload.getD 7 0 &&& 0x7F ∧
      info.function_code < 0x80 := by
  have h1 : ¬ payload.length < 7 + 1 := by omega
  have hfc2 : 128 ≤ payload[7]?.getD 0 := by
    rwa [List.getD_eq_getElem?_getD] at hfc
  unfold parse_modbus
  rw [if_neg h1, if_neg (not_not_intro hpid)]
  refine ⟨_, rfl, ?_, ?_, ?_⟩
  · simp [hfc2]
  · simp [hfc2]
  · have hb : (payload[7]?.getD 0 &&& 127) < 128 :=
      Nat.lt_succ_of_le Nat.and_le_right
    simpa [hfc2] using hb

/-- C9 witness: an exception response to FC 3 (raw byte 0x83) reports
function code 3 with the exception flag set. -/
theorem C9_witness :
    ∃ info, parse_modbus [0, 1, 0, 0, 0, 3, 1, 0x83, 2] 502 49152 = some info ∧
      info.is_exception = true ∧
      info.function_code = [0, 1, 0, 0, 0, 3, 1, 0x83, 2].getD 7 0 &&& 0x7F ∧
      info.function_code < 0x80 :=
  C9_parse_modbus_exception [0, 1, 0, 0, 0, 3, 1, 0x83, 2] 502 49152
    (by decide) (by decide) (by decide)

/-- Bitwise and against a left-shifted mask shifts out the low bits. -/
theorem land_high_mask (x q k : Nat) : x &&& (q <<< k) = ((x >>> k) &&& q) <<< k := by
  apply Nat.eq_of_testBit_eq
  intro i
  rw [Nat.testBit_and, Nat.testBit_shiftLeft, Nat.testBit_shiftLeft,
    Nat.testBit_and, Nat.testBit_shiftRight]
  by_cases h : k ≤ i
  · simp [h, Nat.add_sub_cancel' h]
  · simp [h]

/-- Bitwise and against a contiguous top mask rounds down to a multiple
of `2 ^ k` (for values within `m + k` bits). -/
theorem land_top_mask (x m k : Nat) (hx : x < 2 ^ (m + k)) :
    x &&& ((2 ^ m - 1) <<< k) = x / 2 ^ k * 2 ^ k := by
  rw [land_high_mask, Nat.and_pow_two_sub_one_eq_mod, Nat.shiftRight_eq_div_pow,
    Nat.shiftLeft_eq]
  have h2 : x / 2 ^ k < 2 ^ m := by
    apply Nat.div_lt_of_lt_mul
    rw [pow_add, Nat.mul_comm] at hx
    exact hx
  rw [Nat.mod_eq_of_lt h2]

/-- The `fe80::/10` membership test of the source, as a range. -/
theorem mask_fe80 (x : Nat) (hx : x < 65536) :
    (x &&& 0xffc0 = 0xfe80) ↔ (0xfe80 ≤ x ∧ x ≤ 0xfebf) := by
  have hm : (0xffc0 : Nat) = (2 ^ 10 - 1) <<< 6 := by norm_num [Nat.shiftLeft_eq]
  have hx16 : x < 2 ^ (10 + 6) := by norm_num; omega
  rw [hm, land_top_mask x 10 6 hx16]
  norm_num
  omega

/-- The `fc00::/7` membership test of the source, as a range. -/
theorem mask_fc00 (x : Nat) (hx : x < 65536) :
    (x &&& 0xfe00 = 0xfc00) ↔ (0xfc00 ≤ x ∧ x ≤ 0xfdff) := by
  have hm : (0xfe00 : Nat) = (2 ^ 7 - 1) <<< 9 := by norm_num [Nat.shiftLeft_eq]
  have hx16 : x < 2 ^ (7 + 9) := by norm_num; omega
  rw [hm, land_top_mask x 7 9 hx16]
  norm_num
  omega

/-- The `ff00::/8` membership test of the source, as a range. -/
theorem mask_ff00 (x : Nat) (hx : x < 65536) :
    (x &&& 0xff00 = 0xff00) ↔ (0xff00 ≤ x) := by
  have hm : (0xff00 : Nat) = (2 ^ 8 - 1) <<< 8 := by norm_num [Nat.shiftLeft_eq]
  have hx16 : x < 2 ^ (8 + 8) := by norm_num; omega
  rw [hm, land_top_mask x 8 8 hx16]
  norm_num
  omega

set_option maxHeartbeats 1600000 in
/-- C7: `is_public_ip` is false for unparseable strings (in particular
"not-an-ip" and ""); on parsed IPv4 addresses it is false exactly on
10/8, 172.16/12, 192.168/16, 100.64/10, 127/8, 169.254/16, 0/8 and
224/4-and-above; on parsed IPv6 addresses (segments below 2^16) it is
false exactly on loopback, unspecified, fe80::/10, fc00::/7 and
ff00::/8; and it is true on other addresses, e.g. 8.8.8.8 and
100.128.0.1. -/
theorem C7_is_public_ip :
    (∀ s : String, parse_ip_addr s = none → is_public_ip s = false) ∧
    is_public_ip "not-an-ip" = false ∧
    is_public_ip "" = false ∧
    (∀ o0 o1 o2 o3 : Nat,
      (o0 = 10 ∨ (o0 = 172 ∧ 16 ≤ o1 ∧ o1 ≤ 31) ∨ (o0 = 192 ∧ o1 = 168)
        ∨ (o0 = 100 ∧ 64 ≤ o1 ∧ o1 ≤ 127) ∨ o0 = 127 ∨ (o0 = 169 ∧ o1 = 254)
        ∨ o0 = 0 ∨ 224 ≤ o0) →
      is_public_ip_addr (.V4 o0 o1 o2 o3) = false) ∧
    (∀ o0 o1 o2 o3 : Nat,
      ¬ (o0 = 10 ∨ (o0 = 172 ∧ 16 ≤ o1 ∧ o1 ≤ 31) ∨ (o0 = 192 ∧ o1 = 168)
        ∨ (o0 = 100 ∧ 64 ≤ o1 ∧ o1 ≤ 127) ∨ o0 = 127 ∨ (o0 = 169 ∧ o1 = 254)
        ∨ o0 = 0 ∨ 224 ≤ o0) →
      is_public_ip_addr (.V4 o0 o1 o2 o3) = true) ∧
    (∀ s0 s1 s2 s3 s4 s5 s6 s7 : Nat, s0 < 65536 →
      ((s0 = 0 ∧ s1 = 0 ∧ s2 = 0 ∧ s3 = 0 ∧ s4 = 0 ∧ s5 = 0 ∧ s6 = 0 ∧ s7 = 1)
        ∨ (s0 = 0 ∧ s1 = 0 ∧ s2 = 0 ∧ s3 = 0 ∧ s4 = 0 ∧ s5 = 0 ∧ s6 = 0 ∧ s7 = 0)
        ∨ (0xfe80 ≤ s0 ∧ s0 ≤ 0xfebf) ∨ (0xfc00 ≤ s0 ∧ s0 ≤ 0xfdff)
        ∨ 0xff00 ≤ s0) →
      is_public_ip_addr (.V6 s0 s1 s2 s3 s4 s5 s6 s7) = false) ∧
    (∀ s0 s1 s2 s3 s4 s5 s6 s7 : Nat, s0 < 65536 →
      ¬ ((s0 = 0 ∧ s1 = 0 ∧ s2 = 0 ∧ s3 = 0 ∧ s4 = 0 ∧ s5 = 0 ∧ s6 = 0 ∧ s7 = 1)
        ∨ (s0 = 0 ∧ s1 = 0 ∧ s2 = 0 ∧ s3 = 0 ∧ s4 = 0 ∧ s5 = 0 ∧ s6 = 0 ∧ s7 = 0)
        ∨ (0xfe80 ≤ s0 ∧ s0 ≤ 0xfebf) ∨ (0xfc00 ≤ s0 ∧ s0 ≤ 0xfdff)
        ∨ 0xff00 ≤ s0) →
      is_public_ip_addr (.V6 s0 s1 s2 s3 s4 s5 s6 s7) = true) ∧
    is_public_ip "8.8.8.8" = true ∧
    is_public_ip "100.128.0.1" = true := by
  refine ⟨?_, by decide, by decide, ?_, ?_, ?_, ?_, by decide, by decide⟩
  · intro s h
    simp [is_public_ip, h]
  · intro o0 o1 o2 o3 h
    simp only [is_public_ip_addr]
    split_ifs <;> first | rfl | omega
  · intro o0 o1 o2 o3 h
    simp only [is_public_ip_addr]
    split_ifs <;> first | rfl | omega
  · intro s0 s1 s2 s3 s4 s5 s6 s7 hb h
    simp only [is_public_ip_addr, mask_fe80 s0 hb, mask_fc00 s0 hb, mask_ff00 s0 hb]
    split_ifs <;> first | rfl | omega
  · intro s0 s1 s2 s3 s4 s5 s6 s7 hb h
    simp only [is_public_ip_addr, mask_fe80 s0 hb, mask_fc00 s0 hb, mask_ff00 s0 hb]
    split_ifs <;> first | rfl | omega

/-- C7 witness: the quantified clauses applied at concrete addresses. -/
theorem C7_witness :
    is_public_ip_addr (.V4 10 0 0 1) = false ∧
    is_public_ip_addr (.V4 8 8 8 8) = true ∧
    is_public_ip_addr (.V6 0xfe80 0 0 0 0 0 0 1) = false ∧
    is_public_ip_addr (.V6 0x2001 0xdb8 0 0 0 0 0 1) = true ∧
    is_public_ip "not-an-ip" = false :=
  ⟨C7_is_public_ip.2.2.2.1 10 0 0 1 (by omega),
   C7_is_public_ip.2.2.2.2.1 8 8 8 8 (by omega),
   C7_is_public_ip.2.2.2.2.2.1 0xfe80 0 0 0 0 0 0 1 (by omega) (by omega),
   C7_is_public_ip.2.2.2.2.2.2.1 0x2001 0xdb8 0 0 0 0 0 1 (by omega) (by omega),
   C7_is_public_ip.2.1⟩

/-- A concrete analysis input for the T0846 detector: one IT-classified
source, three destinations reached on port 502, and no OT-device assets
at all. -/
def c3_input : AnalysisInput :=
  { assets := [{ ip_address := "10.9.9.9", device_type := "it_device",
                 protocols := ["http"], purdue_level := none,
                 is_public_ip := false, tags := [], vendor := none }],
    connections :=
      [{ src_ip := "10.9.9.9", dst_ip := "10.0.1.1", src_port := 49152,
         dst_port := 502, protocol := "Modbus", packet_count := 1 },
       { src_ip := "10.9.9.9", dst_ip := "10.0.1.2", src_port := 49152,
         dst_port := 502, protocol := "Modbus", packet_count := 1 },
       { src_ip := "10.9.9.9", dst_ip := "10.0.1.3", src_port := 49152,
         dst_port := 502, protocol := "Modbus", packet_count := 1 }] }

/-- C3: the detector emits a High T0846 finding for a source whose three
distinct destinations are NOT OT-device assets (the input has zero
OT-device assets), because the destination side of a connection is never
checked against the OT-device set; the claim requires at least 3
destinations that are OT-device assets, which this input lacks. -/
theorem C3_t0846_counts_non_ot_destinations :
    (detect_t0846_remote_discovery c3_input).map
        (fun f => (f.severity, f.technique_id, f.affected_assets)) =
      [(Severity.High, some "T0846", ["10.9.9.9", "10.0.1.1", "10.0.1.2", "10.0.1.3"])] ∧
    (c3_input.assets.filter (fun a => is_ot_device_type a.device_type)).length = 0 := by
  constructor
  · rfl
  · rfl

/-- The claim's confidence invariant, written from the spec: the maximum
over the applicable contributions — port-based 1 when any identified
protocol was observed, OUI 3 when the MAC's OUI resolves, the best
signature-match confidence when any signature matched, and 5 when a
Modbus device-identification record exists. -/
def confidence_spec_max (protocols : List IcsProtocol)
    (sig_matches : List AssetSignatureMatch) (oui_vendor : Option String)
    (modbus_device_id : Option ModbusDeviceId) : Nat :=
  let contributions :=
    (if protocols.any (fun p => p != IcsProtocol.Unknown) then [1] else [])
    ++ (match oui_vendor with | some _ => [3] | none => [])
    ++ (match sig_matches.head? with | some m => [m.confidence] | none => [])
    ++ (if modbus_device_id.isSome then [5] else [])
  contributions.foldr Nat.max 0

/-- The amended confidence invariant: as `confidence_spec_max`, but the
OUI contribution applies only when the best signature match carries no
vendor. -/
def confidence_spec_max_gated (protocols : List IcsProtocol)
    (sig_matches : List AssetSignatureMatch) (oui_vendor : Option String)
    (modbus_device_id : Option ModbusDeviceId) : Nat :=
  let contributions :=
    (if protocols.any (fun p => p != IcsProtocol.Unknown) then [1] else [])
    ++ (if (sig_matches.head?.bind (fun m => m.vendor)).isNone ∧ oui_vendor.isSome
        then [3] else [])
    ++ (match sig_matches.head? with | some m => [m.confidence] | none => [])
    ++ (if modbus_device_id.isSome then [5] else [])
  contributions.foldr Nat.max 0

/-- C2 counterexample: for an asset whose best signature match has
confidence 1 and carries a vendor, and whose MAC's OUI resolves, the
built confidence is 1, not the claimed maximum 3 — the OUI contribution
is skipped because the signature already supplied a vendor. -/
theorem C2_confidence_counterexample :
    (build_asset_classification [.Modbus] false
        [{ signature_name := "sig", confidence := 1, vendor := some "VendorX",
           product_family := none, device_type := none, role := none }]
        (some "OuiVendor") none).confidence = 1 ∧
    confidence_spec_max [.Modbus]
        [{ signature_name := "sig", confidence := 1, vendor := some "VendorX",
           product_family := none, device_type := none, role := none }]
        (some "OuiVendor") none = 3 ∧
    ¬ ((build_asset_classification [.Modbus] false
        [{ signature_name := "sig", confidence := 1, vendor := some "VendorX",
           product_family := none, device_type := none, role := none }]
        (some "OuiVendor") none).confidence =
      confidence_spec_max [.Modbus]
        [{ signature_name := "sig", confidence := 1, vendor := some "VendorX",
           product_family := none, device_type := none, role := none }]
        (some "OuiVendor") none) := by
  refine ⟨rfl, rfl, ?_⟩
  decide

/-- C2 amended: the built confidence equals the maximum over the
applicable contributions, where the OUI contribution applies only when
the best signature match supplied no vendor. (Signature confidences are
validated into 1..=5 at load time, hence the hypothesis on the head.) -/
theorem C2_confidence_amended (protocols : List IcsProtocol) (is_server : Bool)
    (sig_matches : List AssetSignatureMatch) (oui_vendor : Option String)
    (modbus_device_id : Option ModbusDeviceId)
    (hconf : ∀ m, sig_matches.head? = some m → 1 ≤ m.confidence ∧ m.confidence ≤ 5) :
    (build_asset_classification protocols is_server sig_matches oui_vendor
        modbus_device_id).confidence =
      confidence_spec_max_gated protocols sig_matches oui_vendor modbus_device_id := by
  cases sig_matches with
  | nil =>
    cases oui_vendor <;> cases modbus_device_id <;>
      by_cases hA : (protocols.any (fun p => p != IcsProtocol.Unknown)) = true <;>
      simp [build_asset_classification, confidence_spec_max_gated, hA]
  | cons m rest =>
    have hm := hconf m rfl
    cases hv : m.vendor <;> cases oui_vendor <;> cases modbus_device_id <;>
      by_cases hA : (protocols.any (fun p => p != IcsProtocol.Unknown)) = true <;>
      simp [build_asset_classification, confidence_spec_max_gated, hA, hv] <;>
      first
      | omega
      | (simp [Nat.max_def]
         split_ifs <;> omega)

/-- C2 witness: the amended equality at a concrete input. -/
theorem C2_witness :
    (build_asset_classification [.Modbus] false [] (some "OuiVendor")
        none).confidence =
      confidence_spec_max_gated [.Modbus] [] (some "OuiVendor") none :=
  C2_confidence_amended [.Modbus] false [] (some "OuiVendor") none
    (fun _ h => Option.noConfusion h)

/-- `mapGet` after `mapInsert`. -/
theorem mapGet_mapInsert {κ α : Type} [DecidableEq κ]
    (m : List (κ × α)) (k k2 : κ) (v : α) :
    mapGet (mapInsert m k v) k2 = if k = k2 then some v else mapGet m k2 := by
  induction m with
  | nil =>
    by_cases h : k = k2 <;> simp [mapInsert, mapGet, h]
  | cons p rest ih =>
    obtain ⟨pk, pv⟩ := p
    by_cases h1 : pk = k
    · subst h1
      by_cases h2 : pk = k2
      · subst h2
        simp [mapInsert, mapGet]
      · simp [mapInsert, mapGet, h2]
    · by_cases h2 : pk = k2
      · subst h2
        have hne : ¬ k = pk := fun he => h1 he.symm
        simp [mapInsert, mapGet, h1, hne]
      · simp [mapInsert, mapGet, h1, h2, ih]

/-- Presence of a key survives any `mapInsert`. -/
theorem mapContains_mapInsert_mono {κ α : Type} [DecidableEq κ]
    (m : List (κ × α)) (k k2 : κ) (v : α) (h : mapContains m k2 = true) :
    mapContains (mapInsert m k v) k2 = true := by
  unfold mapContains at *
  rw [mapGet_mapInsert]
  by_cases hk : k = k2 <;> simp [hk, h]

/-- The inserted key is present after `mapInsert`. -/
theorem mapContains_mapInsert_self {κ α : Type} [DecidableEq κ]
    (m : List (κ × α)) (k : κ) (v : α) :
    mapContains (mapInsert m k v) k = true := by
  unfold mapContains
  rw [mapGet_mapInsert]
  simp

/-- `ensure_node` does not touch the edge map. -/
theorem ensure_node_edges (b : TopologyBuilder) (ip : String)
    (mac : Option String) (protocol : IcsProtocol) :
    (b.ensure_node ip mac protocol).edges = b.edges := rfl

/-- Shape of one `add_connection` step on the edge map: it is a single
`mapInsert` at the forward key, and the inserted edge's `bidirectional`
flag can only be set if the reverse edge was already present or the
previous forward edge already had the flag. -/
theorem add_connection_edges (b : TopologyBuilder)
    (src_ip dst_ip : String) (src_mac dst_mac : Option String)
    (protocol : IcsProtocol) (bytes : Nat) :
    ∃ fe, (b.add_connection src_ip dst_ip src_mac dst_mac protocol bytes).edges
        = mapInsert b.edges (src_ip, dst_ip, protocol.debugStr) fe ∧
      (fe.bidirectional = true →
        mapContains b.edges (dst_ip, src_ip, protocol.debugStr) = true ∨
        (∃ e0, mapGet b.edges (src_ip, dst_ip, protocol.debugStr) = some e0 ∧
          e0.bidirectional = true)) := by
  unfold TopologyBuilder.add_connection
  cases hr : mapContains b.edges (dst_ip, src_ip, protocol.debugStr) with
  | true =>
    cases hg : mapGet b.edges (src_ip, dst_ip, protocol.debugStr) with
    | some e0 =>
      simp only [ensure_node_edges, hr, hg]
      exact ⟨_, rfl, fun _ => Or.inl trivial⟩
    | none =>
      simp only [ensure_node_edges, hr, hg]
      exact ⟨_, rfl, fun _ => Or.inl trivial⟩
  | false =>
    cases hg : mapGet b.edges (src_ip, dst_ip, protocol.debugStr) with
    | some e0 =>
      simp only [ensure_node_edges, hr, hg]
      exact ⟨_, rfl, fun hb => Or.inr ⟨e0, rfl, hb⟩⟩
    | none =>
      simp only [ensure_node_edges, hr, hg]
      exact ⟨_, rfl, fun hb => by simp at hb⟩

/-- The one-sided edge invariant: a set `bidirectional` flag implies the
reverse edge is present. -/
def EdgesBidirInv (edges : List ((String × String × String) × TopoEdge)) : Prop :=
  ∀ src dst p e, mapGet edges (src, dst, p) = some e → e.bidirectional = true →
    mapContains edges (dst, src, p) = true

/-- `add_connection` preserves the one-sided edge invariant. -/
theorem add_connection_preserves_inv (b : TopologyBuilder)
    (src_ip dst_ip : String) (src_mac dst_mac : Option String)
    (protocol : IcsProtocol) (bytes : Nat)
    (hinv : EdgesBidirInv b.edges) :
    EdgesBidirInv
      (b.add_connection src_ip dst_ip src_mac dst_mac protocol bytes).edges := by
  intro src dst p e hget hbid
  obtain ⟨fe, hE, hfe⟩ :=
    add_connection_edges b src_ip dst_ip src_mac dst_mac protocol bytes
  rw [hE] at hget ⊢
  rw [mapGet_mapInsert] at hget
  by_cases hk : (src_ip, dst_ip, protocol.debugStr) = (src, dst, p)
  · rw [if_pos hk] at hget
    have h1 : src_ip = src := congrArg Prod.fst hk
    have h2 : dst_ip = dst := congrArg (fun x => x.2.1) hk
    have h3 : protocol.debugStr = p := congrArg (fun x => x.2.2) hk
    have hfee : fe = e := Option.some.inj hget
    rcases hfe (hfee ▸ hbid) with hr | ⟨e0, hg0, hb0⟩
    · apply mapContains_mapInsert_mono
      rw [← h1, ← h2, ← h3]
      exact hr
    · apply mapContains_mapInsert_mono
      have := hinv src dst p e0 (by rw [← h1, ← h2, ← h3]; exact hg0) hb0
      exact this
  · rw [if_neg hk] at hget
    exact mapContains_mapInsert_mono _ _ _ _ (hinv src dst p e hget hbid)

/-- The invariant holds for any replayed call sequence. -/
theorem runTopology_inv (obs : List ConnObs) : EdgesBidirInv (runTopology obs).edges := by
  have step : ∀ (l : List ConnObs) (b : TopologyBuilder), EdgesBidirInv b.edges →
      EdgesBidirInv ((l.foldl (fun b o =>
        b.add_connection o.src_ip o.dst_ip o.src_mac o.dst_mac o.protocol o.bytes)
        b)).edges := by
    intro l
    induction l with
    | nil => intro b hb; exact hb
    | cons o rest ih =>
      intro b hb
      exact ih _ (add_connection_preserves_inv b o.src_ip o.dst_ip o.src_mac
        o.dst_mac o.protocol o.bytes hb)
  refine step obs TopologyBuilder.new ?_
  intro src dst p e hget
  simp [TopologyBuilder.new, mapGet] at hget

/-- Two mutual `add_connection` observations. -/
def c4_obs2 : List ConnObs :=
  [{ src_ip := "10.0.0.1", dst_ip := "10.0.0.2", src_mac := none,
     dst_mac := none, protocol := .Modbus, bytes := 10 },
   { src_ip := "10.0.0.2", dst_ip := "10.0.0.1", src_mac := none,
     dst_mac := none, protocol := .Modbus, bytes := 20 }]

/-- The same two observations followed by a repeat of the first. -/
def c4_obs3 : List ConnObs :=
  c4_obs2 ++
    [{ src_ip := "10.0.0.1", dst_ip := "10.0.0.2", src_mac := none,
       dst_mac := none, protocol := .Modbus, bytes := 30 }]

/-- C4 counterexample: after add(A,B) then add(B,A), the (A,B) edge
still carries `bidirectional = false` although its reverse edge is
present — the claimed "true iff the reverse edge is present" fails, as
does "both edges of a mutual pair carry the flag". -/
theorem C4_bidirectional_counterexample :
    (mapGet (runTopology c4_obs2).edges ("10.0.0.1", "10.0.0.2", "Modbus")).map
        (fun e => e.bidirectional) = some false ∧
    mapContains (runTopology c4_obs2).edges ("10.0.0.2", "10.0.0.1", "Modbus")
      = true := by
  constructor
  · rfl
  · rfl

/-- C4 amended: the `bidirectional` flag only ever implies the presence
of the reverse edge (one direction of the claimed equivalence); the flag
is set by a forward observation made while the reverse edge exists, so
after add(A,B), add(B,A), add(A,B) both mutual edges carry it. -/
theorem C4_bidirectional_amended :
    (∀ (obs : List ConnObs) (src dst p : String) (e : TopoEdge),
        mapGet (runTopology obs).edges (src, dst, p) = some e →
        e.bidirectional = true →
        mapContains (runTopology obs).edges (dst, src, p) = true) ∧
    (mapGet (runTopology c4_obs3).edges ("10.0.0.1", "10.0.0.2", "Modbus")).map
        (fun e => e.bidirectional) = some true ∧
    (mapGet (runTopology c4_obs3).edges ("10.0.0.2", "10.0.0.1", "Modbus")).map
        (fun e => e.bidirectional) = some true := by
  refine ⟨fun obs => runTopology_inv obs, rfl, rfl⟩

/-- C4 witness: the implication applied to the concrete (B, A) edge of
the two-call replay, whose flag is set. -/
theorem C4_witness :
    mapContains (runTopology c4_obs2).edges ("10.0.0.1", "10.0.0.2", "Modbus")
      = true :=
  C4_bidirectional_amended.1 c4_obs2 "10.0.0.2" "10.0.0.1" "Modbus"
    { id := "e2", source := "10.0.0.2", target := "10.0.0.1",
      protocol := .Modbus, packet_count := 1, byte_count := 20,
      bidirectional := true }
    (by rfl) (by rfl)

/-- Sum of per-connection packet counts over the connection map. -/
def connPacketSum (m : List (String × ConnectionInfo)) : Nat :=
  (m.map (fun p => p.2.packet_count)).sum

/-- Inserting at a fresh key adds the new record's count to the sum. -/
theorem connPacketSum_mapInsert_none (m : List (String × ConnectionInfo))
    (k : String) (v : ConnectionInfo) (h : mapGet m k = none) :
    connPacketSum (mapInsert m k v) = connPacketSum m + v.packet_count := by
  induction m with
  | nil => simp [mapInsert, connPacketSum]
  | cons p rest ih =>
    obtain ⟨pk, pv⟩ := p
    by_cases hk : pk = k
    · simp [mapGet, hk] at h
    · simp [mapGet, hk] at h
      simp [mapInsert, hk, connPacketSum] at ih ⊢
      rw [ih h]
      omega

/-- Replacing the record at a present key exchanges its count in the sum. -/
theorem connPacketSum_mapInsert_some (m : List (String × ConnectionInfo))
    (k : String) (v c : ConnectionInfo) (h : mapGet m k = some c) :
    connPacketSum (mapInsert m k v) + c.packet_count
      = connPacketSum m + v.packet_count := by
  induction m with
  | nil => simp [mapGet] at h
  | cons p rest ih =>
    obtain ⟨pk, pv⟩ := p
    by_cases hk : pk = k
    · simp [mapGet, hk] at h
      simp [mapInsert, hk, connPacketSum, h]
      omega
    · simp [mapGet, hk] at h
      simp [mapInsert, hk, connPacketSum] at ih ⊢
      have := ih h
      omega

/-- `process_modbus` does not touch the connection map. -/
theorem process_modbus_connections (s : PacketProcessor) (packet : ParsedPacket)
    (info : ModbusInfo) (ts : Rat) :
    (s.process_modbus packet info ts).connections = s.connections := by
  unfold PacketProcessor.process_modbus
  cases hrr : info.register_range <;> cases hdi : info.device_id <;>
    split_ifs <;> rfl

/-- `process_modbus` does not touch the packet total. -/
theorem process_modbus_total (s : PacketProcessor) (packet : ParsedPacket)
    (info : ModbusInfo) (ts : Rat) :
    (s.process_modbus packet info ts).total_packets = s.total_packets := by
  unfold PacketProcessor.process_modbus
  cases hrr : info.register_range <;> cases hdi : info.device_id <;>
    split_ifs <;> rfl

/-- `process_dnp3` does not touch the connection map. -/
theorem process_dnp3_connections (s : PacketProcessor) (packet : ParsedPacket)
    (info : Dnp3Info) :
    (s.process_dnp3 packet info).connections = s.connections := by
  unfold PacketProcessor.process_dnp3
  cases hfc : info.function_code <;> split_ifs <;> rfl

/-- `process_dnp3` does not touch the packet total. -/
theorem process_dnp3_total (s : PacketProcessor) (packet : ParsedPacket)
    (info : Dnp3Info) :
    (s.process_dnp3 packet info).total_packets = s.total_packets := by
  unfold PacketProcessor.process_dnp3
  cases hfc : info.function_code <;> split_ifs <;> rfl

/-- Asset-fact tracking leaves connections and the total unchanged. -/
theorem track_asset_facts_frame (s : PacketProcessor) (packet : ParsedPacket)
    (protocol : IcsProtocol) (timestamp : String) :
    (s.track_asset_facts packet protocol timestamp).connections = s.connections ∧
    (s.track_asset_facts packet protocol timestamp).total_packets
      = s.total_packets := by
  unfold PacketProcessor.track_asset_facts
  cases packet.src_mac <;> cases packet.dst_mac <;> exact ⟨rfl, rfl⟩

/-- Server detection leaves connections and the total unchanged. -/
theorem track_servers_frame (s : PacketProcessor) (packet : ParsedPacket) :
    (s.track_servers packet).connections = s.connections ∧
    (s.track_servers packet).total_packets = s.total_packets := by
  unfold PacketProcessor.track_servers
  split_ifs <;> exact ⟨rfl, rfl⟩

/-- The connection update is one `mapInsert` at the given key; the
stored record's count is one more than the previous count there, and
the total is untouched. -/
theorem update_connection_shape (s : PacketProcessor) (packet : ParsedPacket)
    (conn_key proto_str timestamp : String) :
    (s.update_connection packet conn_key proto_str timestamp).1.connections
        = mapInsert s.connections conn_key
            (s.update_connection packet conn_key proto_str timestamp).2 ∧
    (s.update_connection packet conn_key proto_str timestamp).2.packet_count
        = (match mapGet s.connections conn_key with
            | some c => c.packet_count
            | none => 0) + 1 ∧
    (s.update_connection packet conn_key proto_str timestamp).1.total_packets
        = s.total_packets := by
  unfold PacketProcessor.update_connection
  cases hg : mapGet s.connections conn_key <;> exact ⟨rfl, rfl, rfl⟩

/-- The summary step leaves connections and the total unchanged. -/
theorem track_summary_frame (s : PacketProcessor) (packet : ParsedPacket)
    (conn : ConnectionInfo) (conn_key proto_str timestamp : String) :
    (s.track_summary packet conn conn_key proto_str timestamp).connections
      = s.connections ∧
    (s.track_summary packet conn conn_key proto_str timestamp).total_packets
      = s.total_packets :=
  ⟨rfl, rfl⟩

/-- Deep-parse folding leaves connections and the total unchanged. -/
theorem fold_deep_parse_frame (s : PacketProcessor) (packet : ParsedPacket)
    (protocol : IcsProtocol) :
    (s.fold_deep_parse packet protocol).connections = s.connections ∧
    (s.fold_deep_parse packet protocol).total_packets = s.total_packets := by
  unfold PacketProcessor.fold_deep_parse
  cases deep_parse packet protocol with
  | none => exact ⟨rfl, rfl⟩
  | some dr =>
    cases dr with
    | Modbus info =>
      exact ⟨process_modbus_connections s packet info _,
             process_modbus_total s packet info _⟩
    | Dnp3 info =>
      exact ⟨process_dnp3_connections s packet info,
             process_dnp3_total s packet info⟩

/-- Topology feed and signature buffers leave connections and the total
unchanged. -/
theorem track_topology_and_buffers_frame (s : PacketProcessor)
    (packet : ParsedPacket) (protocol : IcsProtocol) :
    (s.track_topology_and_buffers packet protocol).connections = s.connections ∧
    (s.track_topology_and_buffers packet protocol).total_packets
      = s.total_packets :=
  ⟨rfl, rfl⟩

/-- One `process_packet` step: the connection-count sum and the packet
total both advance by exactly one (the packet's 5-tuple connection is
the single record whose count is bumped). -/
theorem process_packet_step (s : PacketProcessor) (packet : ParsedPacket) :
    connPacketSum (s.process_packet packet).connections
      = connPacketSum s.connections + 1 ∧
    (s.process_packet packet).total_packets = s.total_packets + 1 := by
  simp only [PacketProcessor.process_packet]
  generalize (packet.src_ip ++ ":" ++ toString packet.src_port ++ "->"
    ++ packet.dst_ip ++ ":" ++ toString packet.dst_port ++ ":"
    ++ (identify_protocol packet).debugStr) = ck
  set s0 : PacketProcessor :=
    { s with
      all_protocols := setInsert s.all_protocols (identify_protocol packet).debugStr,
      total_packets := s.total_packets + 1 } with hs0
  set s1 := s0.track_asset_facts packet (identify_protocol packet)
    packet.timestamp.rfc3339 with hs1
  set s2 := s1.track_servers packet with hs2
  set sc := s2.update_connection packet ck (identify_protocol packet).debugStr
    packet.timestamp.rfc3339 with hsc
  set s4 := sc.1.track_summary packet sc.2 ck (identify_protocol packet).debugStr
    packet.timestamp.rfc3339 with hs4
  set s5 := s4.fold_deep_parse packet (identify_protocol packet) with hs5
  have hc0 : s0.connections = s.connections := rfl
  have ht0 : s0.total_packets = s.total_packets + 1 := rfl
  have h2 : s2.connections = s.connections ∧ s2.total_packets = s.total_packets + 1 := by
    obtain ⟨ha, hb⟩ := track_asset_facts_frame s0 packet (identify_protocol packet)
      packet.timestamp.rfc3339
    obtain ⟨hc, hd⟩ := track_servers_frame s1 packet
    rw [hs2, hc, hd, hs1, ha, hb, hc0, ht0]
    exact ⟨rfl, rfl⟩
  obtain ⟨hu1, hu2, hu3⟩ := update_connection_shape s2 packet ck
    (identify_protocol packet).debugStr packet.timestamp.rfc3339
  obtain ⟨ht1, ht2⟩ := track_summary_frame sc.1 packet sc.2 ck
    (identify_protocol packet).debugStr packet.timestamp.rfc3339
  obtain ⟨hd1, hd2⟩ := fold_deep_parse_frame s4 packet (identify_protocol packet)
  obtain ⟨he1, he2⟩ := track_topology_and_buffers_frame s5 packet
    (identify_protocol packet)
  rw [← hsc] at hu1 hu2 hu3
  constructor
  · rw [he1, hs5, hd1, hs4, ht1, hu1, h2.1]
    cases hg : mapGet s.connections ck with
    | some c =>
      have hsum := connPacketSum_mapInsert_some s.connections ck sc.2 c hg
      rw [h2.1, hg] at hu2
      simp only [] at hu2
      omega
    | none =>
      have hsum := connPacketSum_mapInsert_none s.connections ck sc.2 hg
      rw [h2.1, hg] at hu2
      simp only [] at hu2
      omega
  · rw [he2, hs5, hd2, hs4, ht2, hu3, h2.2]

/-- C8: after the aggregator processes any sequence of IP frame records,
the sum of `packet_count` over all connection records equals the total
number of IP packets processed (which is the length of the sequence). -/
theorem C8_connection_packet_sum (packets : List ParsedPacket) :
    connPacketSum (runProcessor packets).connections
      = (runProcessor packets).total_packets ∧
    (runProcessor packets).total_packets = packets.length := by
  unfold runProcessor
  have step : ∀ (l : List ParsedPacket) (st : PacketProcessor),
      connPacketSum (l.foldl PacketProcessor.process_packet st).connections
        = connPacketSum st.connections + l.length ∧
      (l.foldl PacketProcessor.process_packet st).total_packets
        = st.total_packets + l.length := by
    intro l
    induction l with
    | nil => intro st; simp
    | cons p rest ih =>
      intro st
      obtain ⟨h1, h2⟩ := process_packet_step st p
      obtain ⟨h3, h4⟩ := ih (st.process_packet p)
      constructor
      · simp only [List.foldl_cons]
        rw [h3, h1, List.length_cons]
        omega
      · simp only [List.foldl_cons]
        rw [h4, h2, List.length_cons]
        omega
  obtain ⟨h1, h2⟩ := step packets PacketProcessor.new
  refine ⟨?_, ?_⟩
  · rw [h1, h2]
    simp [PacketProcessor.new, connPacketSum]
  · rw [h2]
    simp [PacketProcessor.new]

/-- The leading asset pair of a finding (the dedup key of
`detect_purdue_violations`). -/
def pairOf (f : Finding) : String × String :=
  (f.affected_assets.getD 0 "", f.affected_assets.getD 1 "")

/-- Equality of asset pairs up to orientation. -/
def PairEq (p q : String × String) : Prop := q = p ∨ q = Prod.swap p

/-- Two findings share the same unordered endpoint pair. -/
def upairEq (f g : Finding) : Prop := PairEq (pairOf f) (pairOf g)

theorem PairEq.refl (p : String × String) : PairEq p p := Or.inl rfl

theorem PairEq.symm {p q : String × String} (h : PairEq p q) : PairEq q p := by
  rcases h with h | h
  · exact Or.inl h.symm
  · right
    rw [h, Prod.swap_swap]

theorem PairEq.trans {p q r : String × String} (h1 : PairEq p q) (h2 : PairEq q r) :
    PairEq p r := by
  rcases h1 with h1 | h1 <;> rcases h2 with h2 | h2 <;> subst h1 <;> subst h2
  · exact Or.inl rfl
  · exact Or.inr rfl
  · exact Or.inr rfl
  · exact Or.inl (Prod.swap_swap p)

/-- A dedup step only emits the incoming finding or previously stored
findings. -/
theorem dedup_step_mem (st : List ((String × String) × Nat) × List Finding)
    (x f : Finding) (hf : f ∈ (dedup_step st x).2) : f ∈ st.2 ∨ f = x := by
  obtain ⟨seen, deduped⟩ := st
  simp only [dedup_step] at hf
  split_ifs at hf
  · rcases hhit : (match mapGet seen (x.affected_assets.getD 0 "",
        x.affected_assets.getD 1 "") with
      | some idx => some idx
      | none => mapGet seen (x.affected_assets.getD 1 "",
          x.affected_assets.getD 0 "")) with _ | idx
    · simp only [hhit] at hf
      simp at hf
      rcases hf with hf | hf
      · exact Or.inl hf
      · exact Or.inr hf
    · simp only [hhit] at hf
      rcases hget : deduped[idx]? with _ | old
      · simp only [hget] at hf
        exact Or.inl hf
      · simp only [hget] at hf
        split_ifs at hf
        · rcases List.mem_or_eq_of_mem_set hf with h | h
          · exact Or.inl h
          · exact Or.inr h
        · exact Or.inl hf
  · simp at hf
    rcases hf with hf | hf
    · exact Or.inl hf
    · exact Or.inr hf

/-- Soundness of the dedup index: every stored key points at a stored
finding with the same unordered pair. -/
def SeenSound (seen : List ((String × String) × Nat)) (deduped : List Finding) :
    Prop :=
  ∀ (k : String × String) (idx : Nat), mapGet seen k = some idx →
    ∃ g : Finding, deduped[idx]? = some g ∧ PairEq k (pairOf g)

/-- Injectivity of the dedup index: no two keys share a slot. -/
def SeenInj (seen : List ((String × String) × Nat)) : Prop :=
  ∀ (k1 k2 : String × String) (idx : Nat),
    mapGet seen k1 = some idx → mapGet seen k2 = some idx → k1 = k2

/-- Coverage of the dedup index: every stored finding is reachable from
some stored key with the same unordered pair. -/
def SeenCover (seen : List ((String × String) × Nat)) (deduped : List Finding) :
    Prop :=
  ∀ (idx : Nat) (g : Finding), deduped[idx]? = some g →
    ∃ k : String × String, mapGet seen k = some idx ∧ PairEq k (pairOf g)

/-- No two stored findings share an unordered pair. -/
def DistinctInv (deduped : List Finding) : Prop :=
  ∀ (i j : Nat) (gi gj : Finding), deduped[i]? = some gi → deduped[j]? = some gj →
    i ≠ j → ¬ upairEq gi gj

/-- Every processed finding is dominated by a stored finding with the
same unordered pair and at least its severity. -/
def DomInv (processed deduped : List Finding) : Prop :=
  ∀ f ∈ processed, ∃ (i : Nat) (g : Finding), deduped[i]? = some g ∧
    upairEq f g ∧ f.severity.rank ≤ g.severity.rank

/-- Index bound from a successful lookup. -/
theorem lt_length_of_getElem? {α : Type} {l : List α} {i : Nat} {a : α}
    (h : l[i]? = some a) : i < l.length := by
  rw [List.getElem?_eq_some_iff] at h
  exact h.choose

/-- Append on the right leaves early lookups unchanged. -/
theorem getElem?_append_left' {α : Type} {l : List α} (l2 : List α) {i : Nat}
    (h : i < l.length) : (l ++ l2)[i]? = l[i]? := by
  rw [List.getElem?_append]
  simp [h]

/-- Looking up the appended element. -/
theorem getElem?_append_self {α : Type} (l : List α) (b : α) :
    (l ++ [b])[l.length]? = some b := by
  simp

/-- Preservation of all dedup invariants by the miss branch (fresh key,
finding appended). -/
theorem dedup_insert_preserves (seen : List ((String × String) × Nat))
    (deduped processed : List Finding) (x : Finding)
    (hk : mapGet seen (pairOf x) = none)
    (hr : mapGet seen (Prod.swap (pairOf x)) = none)
    (hsound : SeenSound seen deduped) (hinj : SeenInj seen)
    (hcover : SeenCover seen deduped) (hdist : DistinctInv deduped)
    (hdom : DomInv processed deduped) :
    SeenSound (mapInsert seen (pairOf x) deduped.length) (deduped ++ [x]) ∧
    SeenInj (mapInsert seen (pairOf x) deduped.length) ∧
    SeenCover (mapInsert seen (pairOf x) deduped.length) (deduped ++ [x]) ∧
    DistinctInv (deduped ++ [x]) ∧
    DomInv (processed ++ [x]) (deduped ++ [x]) := by
  have hfresh : ∀ k idx, mapGet seen k = some idx → idx < deduped.length := by
    intro k idx h
    obtain ⟨g, hg, -⟩ := hsound k idx h
    exact lt_length_of_getElem? hg
  refine ⟨?_, ?_, ?_, ?_, ?_⟩
  · intro k idx h
    rw [mapGet_mapInsert] at h
    by_cases hke : pairOf x = k
    · rw [if_pos hke] at h
      obtain rfl : deduped.length = idx := Option.some.inj h
      exact ⟨x, getElem?_append_self deduped x, hke ▸ PairEq.refl _⟩
    · rw [if_neg hke] at h
      obtain ⟨g, hg, hp⟩ := hsound k idx h
      exact ⟨g, (getElem?_append_left' [x] (lt_length_of_getElem? hg)).trans hg, hp⟩
  · intro k1 k2 idx h1 h2
    rw [mapGet_mapInsert] at h1 h2
    by_cases hk1 : pairOf x = k1 <;> by_cases hk2 : pairOf x = k2
    · exact hk1 ▸ hk2 ▸ rfl
    · rw [if_pos hk1] at h1
      rw [if_neg hk2] at h2
      obtain rfl : deduped.length = idx := Option.some.inj h1
      exact absurd (hfresh k2 _ h2) (by omega)
    · rw [if_neg hk1] at h1
      rw [if_pos hk2] at h2
      obtain rfl : deduped.length = idx := Option.some.inj h2
      exact absurd (hfresh k1 _ h1) (by omega)
    · rw [if_neg hk1] at h1
      rw [if_neg hk2] at h2
      exact hinj k1 k2 idx h1 h2
  · intro idx g h
    have hlt : idx < (deduped ++ [x]).length := lt_length_of_getElem? h
    rw [List.length_append, List.length_singleton] at hlt
    by_cases hie : idx = deduped.length
    · subst hie
      rw [getElem?_append_self] at h
      obtain rfl : x = g := Option.some.inj h
      refine ⟨pairOf x, ?_, PairEq.refl _⟩
      rw [mapGet_mapInsert, if_pos rfl]
    · have hlt2 : idx < deduped.length := by omega
      rw [getElem?_append_left' [x] hlt2] at h
      obtain ⟨k, hk2, hp⟩ := hcover idx g h
      refine ⟨k, ?_, hp⟩
      have hne : pairOf x ≠ k := by
        intro he
        rw [← he] at hk2
        rw [hk] at hk2
        exact Option.noConfusion hk2
      rw [mapGet_mapInsert, if_neg hne]
      exact hk2
  · intro i j gi gj hi hj hne hup
    have hlti : i < deduped.length + 1 := by
      have := lt_length_of_getElem? hi
      simpa using this
    have hltj : j < deduped.length + 1 := by
      have := lt_length_of_getElem? hj
      simpa using this
    by_cases hie : i = deduped.length <;> by_cases hje : j = deduped.length
    · exact hne (hie.trans hje.symm)
    · subst hie
      rw [getElem?_append_self] at hi
      obtain rfl : x = gi := Option.some.inj hi
      have hltj2 : j < deduped.length := by omega
      rw [getElem?_append_left' [x] hltj2] at hj
      obtain ⟨k, hk2, hp⟩ := hcover j gj hj
      have hpx : PairEq (pairOf x) k := PairEq.trans hup (PairEq.symm hp)
      rcases hpx with he | he
      · rw [he, hk] at hk2
        exact Option.noConfusion hk2
      · rw [he, hr] at hk2
        exact Option.noConfusion hk2
    · subst hje
      rw [getElem?_append_self] at hj
      obtain rfl : x = gj := Option.some.inj hj
      have hlti2 : i < deduped.length := by omega
      rw [getElem?_append_left' [x] hlti2] at hi
      obtain ⟨k, hk2, hp⟩ := hcover i gi hi
      have hpx : PairEq (pairOf x) k := PairEq.trans (PairEq.symm hup) (PairEq.symm hp)
      rcases hpx with he | he
      · rw [he, hk] at hk2
        exact Option.noConfusion hk2
      · rw [he, hr] at hk2
        exact Option.noConfusion hk2
    · have hlti2 : i < deduped.length := by omega
      have hltj2 : j < deduped.length := by omega
      rw [getElem?_append_left' [x] hlti2] at hi
      rw [getElem?_append_left' [x] hltj2] at hj
      exact hdist i j gi gj hi hj hne hup
  · intro f hf
    rcases List.mem_append.mp hf with hf | hf
    · obtain ⟨i, g, hi, hup, hrk⟩ := hdom f hf
      exact ⟨i, g, (getElem?_append_left' [x] (lt_length_of_getElem? hi)).trans hi,
        hup, hrk⟩
    · obtain rfl : f = x := List.mem_singleton.mp hf
      exact ⟨deduped.length, _, getElem?_append_self deduped _, PairEq.refl _,
        Nat.le_refl _⟩

/-- Preservation of all dedup invariants when a higher-severity finding
replaces the stored one for its unordered pair. -/
theorem dedup_replace_preserves (seen : List ((String × String) × Nat))
    (deduped processed : List Finding) (x old : Finding) (idx : Nat)
    (k0 : String × String)
    (hidx : mapGet seen k0 = some idx)
    (hold : deduped[idx]? = some old)
    (hxk : PairEq (pairOf x) k0)
    (hrank : old.severity.rank < x.severity.rank)
    (hsound : SeenSound seen deduped) (hinj : SeenInj seen)
    (hcover : SeenCover seen deduped) (hdist : DistinctInv deduped)
    (hdom : DomInv processed deduped) :
    SeenSound seen (deduped.set idx x) ∧ SeenInj seen ∧
    SeenCover seen (deduped.set idx x) ∧ DistinctInv (deduped.set idx x) ∧
    DomInv (processed ++ [x]) (deduped.set idx x) := by
  have hupxold : upairEq x old := by
    obtain ⟨g, hg, hp⟩ := hsound k0 idx hidx
    have hge : g = old := by
      rw [hold] at hg
      exact (Option.some.inj hg).symm
    subst hge
    exact PairEq.trans hxk hp
  have hidxlt : idx < deduped.length := lt_length_of_getElem? hold
  have hset_self : (deduped.set idx x)[idx]? = some x := by
    rw [List.getElem?_set_self', List.getElem?_eq_getElem hidxlt]
    rfl
  have hset_ne : ∀ i, idx ≠ i → (deduped.set idx x)[i]? = deduped[i]? :=
    fun i h => List.getElem?_set_ne h
  refine ⟨?_, hinj, ?_, ?_, ?_⟩
  · intro k i h
    obtain ⟨g, hg, hp⟩ := hsound k i h
    by_cases hi : idx = i
    · subst hi
      have hge : g = old := by
        rw [hold] at hg
        exact (Option.some.inj hg).symm
      subst hge
      exact ⟨x, hset_self, PairEq.trans hp (PairEq.symm hupxold)⟩
    · exact ⟨g, (hset_ne i hi).trans hg, hp⟩
  · intro i g h
    by_cases hi : idx = i
    · subst hi
      rw [hset_self] at h
      obtain rfl : x = g := Option.some.inj h
      exact ⟨k0, hidx, PairEq.symm hxk⟩
    · rw [hset_ne i hi] at h
      exact hcover i g h
  · intro i j gi gj hi hj hne hup
    by_cases hie : idx = i <;> by_cases hje : idx = j
    · exact hne (hie ▸ hje ▸ rfl)
    · subst hie
      rw [hset_self] at hi
      obtain rfl : x = gi := Option.some.inj hi
      rw [hset_ne j hje] at hj
      have : upairEq old gj := PairEq.trans (PairEq.symm hupxold) hup
      exact hdist idx j old gj hold hj hne this
    · subst hje
      rw [hset_self] at hj
      obtain rfl : x = gj := Option.some.inj hj
      rw [hset_ne i hie] at hi
      have : upairEq gi old := PairEq.trans hup hupxold
      exact hdist i idx gi old hi hold hne this
    · rw [hset_ne i hie] at hi
      rw [hset_ne j hje] at hj
      exact hdist i j gi gj hi hj hne hup
  · intro f hf
    rcases List.mem_append.mp hf with hf | hf
    · obtain ⟨i, g, hi, hup, hrk⟩ := hdom f hf
      by_cases hie : idx = i
      · subst hie
        have hge : g = old := by
          rw [hold] at hi
          exact (Option.some.inj hi).symm
        subst hge
        refine ⟨idx, x, hset_self, PairEq.trans hup (PairEq.symm hupxold), ?_⟩
        omega
      · exact ⟨i, g, (hset_ne i hie).trans hi, hup, hrk⟩
    · obtain rfl : f = x := List.mem_singleton.mp hf
      exact ⟨idx, _, hset_self, PairEq.refl _, Nat.le_refl _⟩

/-- One dedup step preserves all invariants, extending domination to the
incoming finding. -/
theorem dedup_step_preserves (seen : List ((String × String) × Nat))
    (deduped processed : List Finding) (x : Finding)
    (hlen : x.affected_assets.length ≥ 2)
    (hsound : SeenSound seen deduped) (hinj : SeenInj seen)
    (hcover : SeenCover seen deduped) (hdist : DistinctInv deduped)
    (hdom : DomInv processed deduped) :
    SeenSound (dedup_step (seen, deduped) x).1 (dedup_step (seen, deduped) x).2 ∧
    SeenInj (dedup_step (seen, deduped) x).1 ∧
    SeenCover (dedup_step (seen, deduped) x).1 (dedup_step (seen, deduped) x).2 ∧
    DistinctInv (dedup_step (seen, deduped) x).2 ∧
    DomInv (processed ++ [x]) (dedup_step (seen, deduped) x).2 := by
  cases hk : mapGet seen (x.affected_assets.getD 0 "", x.affected_assets.getD 1 "") with
  | some idx =>
    have hk2 : mapGet seen (pairOf x) = some idx := hk
    obtain ⟨old, hold, hpold⟩ := hsound (pairOf x) idx hk2
    have hstep : dedup_step (seen, deduped) x =
        (if old.severity.rank < x.severity.rank then (seen, deduped.set idx x)
         else (seen, deduped)) := by
      simp only [dedup_step]
      rw [if_pos hlen]
      simp only [hk, hold]
    by_cases hrank : old.severity.rank < x.severity.rank
    · rw [hstep, if_pos hrank]
      exact dedup_replace_preserves seen deduped processed x old idx (pairOf x)
        hk2 hold (PairEq.refl _) hrank hsound hinj hcover hdist hdom
    · rw [hstep, if_neg hrank]
      refine ⟨hsound, hinj, hcover, hdist, ?_⟩
      intro f hf
      rcases List.mem_append.mp hf with hf | hf
      · exact hdom f hf
      · obtain rfl : f = x := List.mem_singleton.mp hf
        refine ⟨idx, old, hold, hpold, ?_⟩
        omega
  | none =>
    cases hr : mapGet seen (x.affected_assets.getD 1 "", x.affected_assets.getD 0 "") with
    | some idx =>
      have hr2 : mapGet seen (Prod.swap (pairOf x)) = some idx := hr
      obtain ⟨old, hold, hpold⟩ := hsound (Prod.swap (pairOf x)) idx hr2
      have hxk : PairEq (pairOf x) (Prod.swap (pairOf x)) := Or.inr rfl
      have hstep : dedup_step (seen, deduped) x =
          (if old.severity.rank < x.severity.rank then (seen, deduped.set idx x)
           else (seen, deduped)) := by
        simp only [dedup_step]
        rw [if_pos hlen]
        simp only [hk, hr, hold]
      by_cases hrank : old.severity.rank < x.severity.rank
      · rw [hstep, if_pos hrank]
        exact dedup_replace_preserves seen deduped processed x old idx
          (Prod.swap (pairOf x)) hr2 hold hxk hrank hsound hinj hcover hdist hdom
      · rw [hstep, if_neg hrank]
        refine ⟨hsound, hinj, hcover, hdist, ?_⟩
        intro f hf
        rcases List.mem_append.mp hf with hf | hf
        · exact hdom f hf
        · obtain rfl : f = x := List.mem_singleton.mp hf
          refine ⟨idx, old, hold, PairEq.trans hxk hpold, ?_⟩
          omega
    | none =>
      have hk2 : mapGet seen (pairOf x) = none := hk
      have hr2 : mapGet seen (Prod.swap (pairOf x)) = none := hr
      have hstep : dedup_step (seen, deduped) x =
          (mapInsert seen (pairOf x) deduped.length, deduped ++ [x]) := by
        simp only [dedup_step]
        rw [if_pos hlen]
        simp only [hk, hr]
        rfl
      rw [hstep]
      exact dedup_insert_preserves seen deduped processed x hk2 hr2
        hsound hinj hcover hdist hdom

/-- Dedup over a list only emits stored or incoming findings. -/
theorem dedup_foldl_mem (l : List Finding)
    (st : List ((String × String) × Nat) × List Finding) :
    ∀ f ∈ (l.foldl dedup_step st).2, f ∈ st.2 ∨ f ∈ l := by
  induction l generalizing st with
  | nil => exact fun f hf => Or.inl hf
  | cons x rest ih =>
    intro f hf
    rcases ih (dedup_step st x) f hf with h | h
    · rcases dedup_step_mem st x f h with h2 | h2
      · exact Or.inl h2
      · exact Or.inr (h2 ▸ List.mem_cons_self x rest)
    · exact Or.inr (List.mem_cons_of_mem x h)

/-- The dedup fold preserves all invariants, extending domination to
every processed finding. -/
theorem dedup_foldl_inv (l : List Finding) :
    ∀ (seen : List ((String × String) × Nat)) (deduped processed : List Finding),
    (∀ f ∈ l, f.affected_assets.length ≥ 2) →
    SeenSound seen deduped → SeenInj seen → SeenCover seen deduped →
    DistinctInv deduped → DomInv processed deduped →
    SeenSound (l.foldl dedup_step (seen, deduped)).1
        (l.foldl dedup_step (seen, deduped)).2 ∧
    SeenInj (l.foldl dedup_step (seen, deduped)).1 ∧
    SeenCover (l.foldl dedup_step (seen, deduped)).1
        (l.foldl dedup_step (seen, deduped)).2 ∧
    DistinctInv (l.foldl dedup_step (seen, deduped)).2 ∧
    DomInv (processed ++ l) (l.foldl dedup_step (seen, deduped)).2 := by
  induction l with
  | nil =>
    intro seen deduped processed _ h1 h2 h3 h4 h5
    simpa using ⟨h1, h2, h3, h4, h5⟩
  | cons x rest ih =>
    intro seen deduped processed hl h1 h2 h3 h4 h5
    obtain ⟨s1, s2, s3, s4, s5⟩ := dedup_step_preserves seen deduped processed x
      (hl x (List.mem_cons_self x rest)) h1 h2 h3 h4 h5
    have hrest : ∀ f ∈ rest, f.affected_assets.length ≥ 2 :=
      fun f hf => hl f (List.mem_cons_of_mem x hf)
    have := ih (dedup_step (seen, deduped) x).1 (dedup_step (seen, deduped) x).2
      (processed ++ [x]) hrest s1 s2 s3 s4 s5
    simpa [List.append_assoc] using this

/-- Characterization of `dedup_findings` on lists of two-endpoint
findings: output is a sublist-selection of the input, no two outputs
share an unordered pair, and every input is dominated by an output with
the same unordered pair. -/
theorem dedup_findings_spec (l : List Finding)
    (hl : ∀ f ∈ l, f.affected_assets.length ≥ 2) :
    (∀ f ∈ dedup_findings l, f ∈ l) ∧
    List.Pairwise (fun f g => ¬ upairEq f g) (dedup_findings l) ∧
    (∀ f ∈ l, ∃ g ∈ dedup_findings l, upairEq f g ∧
      f.severity.rank ≤ g.severity.rank) := by
  have hsound0 : SeenSound [] [] := by
    intro k idx h
    simp [mapGet] at h
  have hinj0 : SeenInj ([] : List ((String × String) × Nat)) := by
    intro k1 k2 idx h1
    simp [mapGet] at h1
  have hcover0 : SeenCover [] [] := by
    intro idx g h
    simp at h
  have hdist0 : DistinctInv [] := by
    intro i j gi gj hi
    simp at hi
  have hdom0 : DomInv [] [] := by
    intro f hf
    simp at hf
  obtain ⟨i1, i2, i3, i4, i5⟩ :=
    dedup_foldl_inv l [] [] [] hl hsound0 hinj0 hcover0 hdist0 hdom0
  refine ⟨?_, ?_, ?_⟩
  · intro f hf
    rcases dedup_foldl_mem l ([], []) f hf with h | h
    · simp at h
    · exact h
  · rw [List.pairwise_iff_getElem]
    intro i j hi hj hij
    exact i4 i j _ _ (List.getElem?_eq_getElem hi) (List.getElem?_eq_getElem hj)
      (by omega)
  · intro f hf
    obtain ⟨i, g, hg, hup, hrk⟩ := i5 f (by simpa using hf)
    exact ⟨g, List.getElem?_mem hg, hup, hrk⟩

/-- Membership in a conditional singleton. -/
theorem mem_ite_singleton {α : Type} (c : Prop) [Decidable c] (x f : α) :
    f ∈ (if c then [x] else []) ↔ c ∧ f = x := by
  split_ifs with h <;> simp [h]

/-- Every pre-dedup violation finding names its two endpoints. -/
theorem purdue_violation_findings_len (input : AnalysisInput)
    (assignments : List PurdueAssignment) :
    ∀ f ∈ purdue_violation_findings input assignments,
      f.affected_assets.length ≥ 2 := by
  intro f hf
  unfold purdue_violation_findings at hf
  rw [List.mem_flatMap] at hf
  obtain ⟨conn, -, hf⟩ := hf
  rcases h1 : mapGet (purdue_level_map assignments) conn.src_ip with _ | ls <;>
    rcases h2 : mapGet (purdue_level_map assignments) conn.dst_ip with _ | ld <;>
    simp only [h1, h2] at hf
  · simp at hf
  · simp at hf
  · simp at hf
  · rw [List.mem_append, mem_ite_singleton, mem_ite_singleton] at hf
    rcases hf with ⟨-, rfl⟩ | ⟨-, rfl⟩
    · simp [purdue_medium_finding]
    · simp [purdue_low_finding]

/-- C5: for every directed connection with both endpoint levels
assigned, the pre-dedup pass emits a Medium T0886 finding exactly when
one level is at most 1 and the other at least 4, and a Low T0886 finding
exactly when one level is exactly 2 and the other at least 4; the final
result deduplicates by the unordered endpoint pair, keeping the highest
severity, so no two returned findings share an unordered pair and every
pre-dedup finding is dominated by a returned finding of its pair. -/
theorem C5_purdue_violations (input : AnalysisInput)
    (assignments : List PurdueAssignment) :
    (∀ f : Finding, f ∈ purdue_violation_findings input assignments ↔
      ∃ conn ∈ input.connections, ∃ ls ld : Nat,
        mapGet (purdue_level_map assignments) conn.src_ip = some ls ∧
        mapGet (purdue_level_map assignments) conn.dst_ip = some ld ∧
        (((ls ≤ 1 ∧ ld ≥ 4) ∨ (ls ≥ 4 ∧ ld ≤ 1)) ∧
            f = purdue_medium_finding conn ls ld ∨
         ((ls = 2 ∧ ld ≥ 4) ∨ (ls ≥ 4 ∧ ld = 2)) ∧
            f = purdue_low_finding conn ls ld)) ∧
    (∀ (conn : ConnectionSnapshot) (ls ld : Nat),
      (purdue_medium_finding conn ls ld).severity = Severity.Medium ∧
      (purdue_medium_finding conn ls ld).technique_id = some "T0886" ∧
      (purdue_medium_finding conn ls ld).affected_assets
        = [conn.src_ip, conn.dst_ip] ∧
      (purdue_low_finding conn ls ld).severity = Severity.Low ∧
      (purdue_low_finding conn ls ld).technique_id = some "T0886" ∧
      (purdue_low_finding conn ls ld).affected_assets
        = [conn.src_ip, conn.dst_ip]) ∧
    (∀ f ∈ detect_purdue_violations input assignments,
      f ∈ purdue_violation_findings input assignments) ∧
    List.Pairwise (fun f g => ¬ upairEq f g)
      (detect_purdue_violations input assignments) ∧
    (∀ f ∈ purdue_violation_findings input assignments,
      ∃ g ∈ detect_purdue_violations input assignments,
        upairEq f g ∧ f.severity.rank ≤ g.severity.rank) := by
  have hspec := dedup_findings_spec (purdue_violation_findings input assignments)
    (purdue_violation_findings_len input assignments)
  refine ⟨?_, ?_, hspec.1, hspec.2.1, hspec.2.2⟩
  · intro f
    unfold purdue_violation_findings
    rw [List.mem_flatMap]
    constructor
    · rintro ⟨conn, hconn, hf⟩
      refine ⟨conn, hconn, ?_⟩
      rcases h1 : mapGet (purdue_level_map assignments) conn.src_ip with _ | ls <;>
        rcases h2 : mapGet (purdue_level_map assignments) conn.dst_ip with _ | ld <;>
        simp only [h1, h2] at hf
      · simp at hf
      · simp at hf
      · simp at hf
      · rw [List.mem_append, mem_ite_singleton, mem_ite_singleton] at hf
        exact ⟨ls, ld, rfl, rfl, hf⟩
    · rintro ⟨conn, hconn, ls, ld, h1, h2, hcase⟩
      refine ⟨conn, hconn, ?_⟩
      simp only [h1, h2]
      rw [List.mem_append, mem_ite_singleton, mem_ite_singleton]
      exact hcase
  · intro conn ls ld
    exact ⟨rfl, rfl, rfl, rfl, rfl, rfl⟩

/-- Concrete input for the C5 witness: one L1 endpoint talking to one
L4 endpoint. -/
def c5_input : AnalysisInput :=
  { assets := [],
    connections := [{ src_ip := "10.0.0.1", dst_ip := "192.168.1.50",
                      src_port := 502, dst_port := 80, protocol := "Http",
                      packet_count := 5 }] }

/-- Concrete assignments for the C5 witness. -/
def c5_assignments : List PurdueAssignment :=
  [{ ip_address := "10.0.0.1", level := 1, method := .Auto, reason := "r" },
   { ip_address := "192.168.1.50", level := 4, method := .Auto, reason := "r" }]

set_option maxRecDepth 8192 in
/-- C5 witness: the deduplicated result of the concrete L1-to-L4 input
is contained in the pre-dedup emission, applied to the Medium finding it
returns. -/
theorem C5_witness :
    purdue_medium_finding
        { src_ip := "10.0.0.1", dst_ip := "192.168.1.50", src_port := 502,
          dst_port := 80, protocol := "Http", packet_count := 5 } 1 4
      ∈ purdue_violation_findings c5_input c5_assignments :=
  (C5_purdue_violations c5_input c5_assignments).2.2.1 _ (by decide)
